import Mathlib

/-!
Verification development for the Mt5_AiTrade order execution and
position-risk-management subsystem.

The Python sources are shallowly embedded: machine floats are modelled by
exact rationals, dictionaries by structures with `Option` fields (a `none`
field models an absent key), fallible venue calls by `Option`-valued
environment functions, and side effects by explicit event lists.  Python's
decimal `round(x, d)` (banker's rounding) is modelled by `roundHalfEven`
over rationals.
-/

namespace Mt5

/-- Numeric constants of the MetaTrader5 Python package. -/
def TRADE_ACTION_DEAL : ℤ := 1

def TRADE_ACTION_PENDING : ℤ := 5

def TRADE_ACTION_SLTP : ℤ := 6

def TRADE_ACTION_MODIFY : ℤ := 7

def TRADE_ACTION_REMOVE : ℤ := 8

def ORDER_TYPE_BUY : ℤ := 0

def ORDER_TYPE_SELL : ℤ := 1

def ORDER_TYPE_BUY_LIMIT : ℤ := 2

def ORDER_TYPE_SELL_LIMIT : ℤ := 3

def ORDER_TYPE_BUY_STOP : ℤ := 4

def ORDER_TYPE_SELL_STOP : ℤ := 5

def ORDER_TYPE_BUY_STOP_LIMIT : ℤ := 6

def ORDER_TYPE_SELL_STOP_LIMIT : ℤ := 7

def POSITION_TYPE_BUY : ℤ := 0

def POSITION_TYPE_SELL : ℤ := 1

def ORDER_TIME_GTC : ℤ := 0

def ORDER_FILLING_IOC : ℤ := 1

def TRADE_RETCODE_DONE : ℤ := 10009

def TRADE_RETCODE_ERROR : ℤ := 10011

end Mt5

/-- A live quote as returned by `mt5.symbol_info_tick`. -/
structure Tick where
  bid : ℚ
  ask : ℚ
deriving Repr, DecidableEq

/-- Instrument metadata as returned by `mt5.symbol_info`
(only the fields the embedded code reads). -/
structure SymbolInfo where
  point : ℚ
  digits : ℕ
  spread : ℤ
  trade_stops_level : ℤ
  visible : Bool
deriving Repr, DecidableEq

/-- The caller-side request dictionary passed to `send_order_request`
(`order_info.py`).  A `none` field models an absent key. -/
structure Request where
  action : Option ℤ := none
  symbol : Option String := none
  volume : Option ℚ := none
  price : Option ℚ := none
  type : Option ℤ := none
  sl : Option ℚ := none
  tp : Option ℚ := none
  magic : Option ℤ := none
  comment : Option String := none
  original_comment : Option String := none
  deviation : Option ℤ := none
  expiration : Option ℤ := none
  position : Option ℤ := none
  position_by : Option ℤ := none
  type_time : Option ℤ := none
  type_filling : Option ℤ := none
  stoplimit : Option ℚ := none
  order : Option ℤ := none
deriving Repr, DecidableEq

/-- The filtered dictionary actually submitted to `mt5.order_send`:
`send_order_request` copies exactly the keys of its `valid_keys` list
(notably without `comment` and `original_comment`). -/
structure Mt5Request where
  action : Option ℤ := none
  symbol : Option String := none
  volume : Option ℚ := none
  type : Option ℤ := none
  price : Option ℚ := none
  sl : Option ℚ := none
  tp : Option ℚ := none
  deviation : Option ℤ := none
  magic : Option ℤ := none
  expiration : Option ℤ := none
  position : Option ℤ := none
  position_by : Option ℤ := none
  type_time : Option ℤ := none
  type_filling : Option ℤ := none
  stoplimit : Option ℚ := none
  order : Option ℤ := none
deriving Repr, DecidableEq

/-- `send_order_request` builds `mt5_request` by copying the `valid_keys`
entries that are present in the (mutated) request. -/
def buildMt5Request (r : Request) : Mt5Request :=
  { action := r.action, symbol := r.symbol, volume := r.volume, type := r.type,
    price := r.price, sl := r.sl, tp := r.tp, deviation := r.deviation,
    magic := r.magic, expiration := r.expiration, position := r.position,
    position_by := r.position_by, type_time := r.type_time,
    type_filling := r.type_filling, stoplimit := r.stoplimit, order := r.order }

/-- The venue's reply structure for `mt5.order_send`; `send_order_request`
copies it field by field into its `result_dict`. -/
structure OrderSendResult where
  retcode : ℤ
  deal : ℤ
  order : ℤ
  volume : ℚ
  price : ℚ
  bid : ℚ
  ask : ℚ
  comment : String
  request_id : ℤ
  retcode_external : ℤ
deriving Repr, DecidableEq

/-- A venue position / pending order snapshot (the fields read by the
embedded code from `mt5.positions_get` / `mt5.orders_get` items). -/
structure RawPosition where
  ticket : ℤ
  symbol : String
  type : ℤ
  volume : ℚ
  price_open : ℚ
  sl : ℚ
  tp : ℚ
  comment : String
  magic : ℤ
  time : ℤ
  profit : ℚ
deriving Repr, DecidableEq

/-- The dictionary produced by `get_account_info` (`init.py`). -/
structure AccountInfo where
  login : ℤ
  server : String
  currency : String
  balance : ℚ
  equity : ℚ
  margin : ℚ
  free_margin : ℚ
  margin_level : ℚ
deriving Repr, DecidableEq

/-- Observable side effects of the embedded code: an order submission to
the venue, a write to the annotation database, or a quote fetch. -/
inductive Event where
  | orderSend (req : Mt5Request)
  | saveComment (ticket : ℤ) (text : String)
  | quoteFetch (symbol : String)
deriving Repr, DecidableEq

def Event.isOrderSend : Event → Bool
  | .orderSend _ => true
  | _ => false

def Event.isSaveComment : Event → Bool
  | .saveComment _ _ => true
  | _ => false

/-- The external world as seen by the embedded subsystem: venue lookups,
order submission, and configuration. -/
structure Env where
  tick : String → Option Tick
  symbolInfo : String → Option SymbolInfo
  symbolSelect : String → Bool
  orderSend : Mt5Request → Option OrderSendResult
  configMagic : ℤ
  positionsTotal : Option ℕ
  positionsGet : Option (List RawPosition)
  positionsByTicket : ℤ → List RawPosition
  ordersByTicket : ℤ → List RawPosition
  accountInfo : Option AccountInfo
  enabled : Bool
  monitorInterval : ℚ
  cacheTtl : ℚ
  now : ℚ

/-- `mt5.symbol_info_tick(symbol)` when `symbol` may be `None`. -/
def tickOpt (env : Env) (s : Option String) : Option Tick :=
  s.bind env.tick

/-- `mt5.symbol_info(symbol)` when `symbol` may be `None`. -/
def symbolInfoOpt (env : Env) (s : Option String) : Option SymbolInfo :=
  s.bind env.symbolInfo

/-- Python's `str()` view of an optional string (`None` prints as "None"),
used in the f-string interpolations of `trading.py`. -/
def pyStr : Option String → String
  | some s => s
  | none => "None"

/-- Banker's rounding to the nearest integer, the rounding mode of
Python's built-in `round`. -/
def roundHalfEven (q : ℚ) : ℤ :=
  let f := ⌊q⌋
  let r := q - (f : ℚ)
  if r < 1 / 2 then f
  else if 1 / 2 < r then f + 1
  else if f % 2 = 0 then f else f + 1

/-- The local `format_price` helper of `calculate_simple_prices`
(`realtime_calculator.py`): non-positive prices become 0, others are
rounded to the instrument's quoted decimal precision. -/
def format_price (digits : ℕ) (price : ℚ) : ℚ :=
  if price ≤ 0 then 0
  else (roundHalfEven (price * 10 ^ digits) : ℚ) / 10 ^ digits

/-- The `safety_buffer = 5` local of `calculate_simple_prices`. -/
def safety_buffer : ℤ := 5

/-- `min_effective_distance = max(min_stops_level, spread_points + safety_buffer)`
in `calculate_simple_prices`. -/
def min_effective_distance_of (info : SymbolInfo) : ℤ :=
  max info.trade_stops_level (info.spread + safety_buffer)

/-- The success payload of `calculate_simple_prices` (its result dict
minus the `success` flag). -/
structure PriceResult where
  symbol : String
  action : String
  volume : ℚ
  entry_price : ℚ
  stop_loss : ℚ
  take_profit : ℚ
  current_price : ℚ
  spread_points : ℤ
  min_stops_level : ℤ
  min_effective_distance : ℤ
deriving Repr, DecidableEq

/-- Result of `calculate_simple_prices`: either the error dict
(`success: False`) or the price dict (`success: True`). -/
inductive CalcResult where
  | failure (error : String)
  | ok (result : PriceResult)
deriving Repr, DecidableEq

/-- Shallow embedding of `calculate_simple_prices`
(`AITrade_MT5/AI/realtime_calculator.py`). -/
def calculate_simple_prices (env : Env) (symbol : String) (action : String)
    (volume : ℚ) (entry_offset_points : ℚ) (stop_loss_points : ℚ)
    (take_profit_points : ℚ) : CalcResult :=
  match env.tick symbol with
  | none => .failure ("无法获取 " ++ symbol ++ " 的价格信息")
  | some tick =>
    match env.symbolInfo symbol with
    | none => .failure ("无法获取 " ++ symbol ++ " 的品种信息")
    | some info =>
      let point_value := info.point
      let digits := info.digits
      let current_price := if action = "BUY" then tick.ask else tick.bid
      let entry_price :=
        if entry_offset_points ≠ 0 then
          current_price + entry_offset_points * point_value
        else current_price
      let spread_points := info.spread
      let min_stops_level := info.trade_stops_level
      let min_effective_distance := min_effective_distance_of info
      let stop_loss :=
        if action = "BUY" then
          if stop_loss_points > 0 then
            let effective_stop_points :=
              max stop_loss_points (min_effective_distance : ℚ)
            let sl := entry_price - effective_stop_points * point_value
            if sl ≥ tick.bid then
              tick.bid - (min_effective_distance : ℚ) * point_value
            else sl
          else 0
        else
          if stop_loss_points > 0 then
            let effective_stop_points :=
              max stop_loss_points (min_effective_distance : ℚ)
            let sl := entry_price + effective_stop_points * point_value
            if sl ≤ tick.ask then
              tick.ask + (min_effective_distance : ℚ) * point_value
            else sl
          else 0
      let take_profit :=
        if action = "BUY" then
          if take_profit_points > 0 then
            let min_profit_points := spread_points + safety_buffer
            let effective_profit_points :=
              max take_profit_points (min_profit_points : ℚ)
            entry_price + effective_profit_points * point_value
          else 0
        else
          if take_profit_points > 0 then
            let min_profit_points := spread_points + safety_buffer
            let effective_profit_points :=
              max take_profit_points (min_profit_points : ℚ)
            entry_price - effective_profit_points * point_value
          else 0
      .ok
        { symbol := symbol
          action := action
          volume := volume
          entry_price := format_price digits entry_price
          stop_loss := format_price digits stop_loss
          take_profit := format_price digits take_profit
          current_price := format_price digits current_price
          spread_points := spread_points
          min_stops_level := min_stops_level
          min_effective_distance := min_effective_distance }

/-- Keep only printable-ASCII characters, as in
`re.sub(r'[^\x20-\x7E]', '', str(comment))`. -/
def cleanAscii (s : String) : String :=
  String.mk (s.toList.filter fun c => 32 ≤ c.toNat ∧ c.toNat ≤ 126)

/-- `cleaned_comment[:32] if len(cleaned_comment) > 32 else cleaned_comment`. -/
def truncate32 (s : String) : String :=
  String.mk (s.toList.take 32)

/-- What `send_order_request` hands back: its return value, the caller's
request dictionary after the in-place mutations, and the side effects. -/
structure SendOutcome where
  ret : Option OrderSendResult
  request : Request
  events : List Event
deriving Repr, DecidableEq

/-- Early-return outcome of `send_order_request` (`return None` before
any side effect beyond the in-place mutations so far). -/
def sendReject (r : Request) : SendOutcome :=
  { ret := none, request := r, events := [] }

/-- The `if magic is None: request['magic'] = config default` mutation. -/
def applyMagicDefault (env : Env) (r : Request) : Request :=
  if r.magic = none then { r with magic := some env.configMagic } else r

/-- The comment sanitization block of `send_order_request`: a nonempty
comment is replaced by its printable-ASCII, 32-character truncation;
otherwise the `comment` key is removed when present. -/
def processComment (r : Request) : Request :=
  let comment := r.comment.getD ""
  if comment ≠ "" then
    { r with comment := some (truncate32 (cleanAscii comment)) }
  else if r.comment ≠ none then { r with comment := none }
  else r

/-- The default-parameter block: `deviation`, `type_time`, `type_filling`
are written into the request when absent. -/
def applyRequestDefaults (r : Request) : Request :=
  let r1 := if r.deviation = none then { r with deviation := some 10 } else r
  let r2 :=
    if r1.type_time = none then { r1 with type_time := some Mt5.ORDER_TIME_GTC }
    else r1
  if r2.type_filling = none then
    { r2 with type_filling := some Mt5.ORDER_FILLING_IOC }
  else r2

/-- Tail of `send_order_request` once `mt5.order_send` has replied: build
`result_dict`, and on `TRADE_RETCODE_DONE` with a nonempty
`original_comment` and a positive order number, persist the full
annotation via `save_order_comment`. -/
def sendFinish (r : Request) (m : Mt5Request)
    (result : OrderSendResult) : SendOutcome :=
  let original_comment := r.original_comment
  let events :=
    match original_comment with
    | some oc =>
      if oc ≠ "" ∧ result.retcode = Mt5.TRADE_RETCODE_DONE ∧ result.order > 0 then
        [Event.orderSend m, Event.saveComment result.order oc]
      else [Event.orderSend m]
    | none => [Event.orderSend m]
  { ret := some result, request := r, events := events }

/-- The part of `send_order_request` from the non-`TRADE_ACTION_REMOVE`
symbol check onwards (comment handling, defaults, submission, result
translation).  The diagnostic block for retcode 10011 references the name
`json`, which `order_info.py` never imports, so that branch raises
`NameError`; the blanket `except` then makes the function return `None`. -/
def sendSubmit (env : Env) (r : Request) : SendOutcome :=
  let r2 := processComment r
  let r5 := applyRequestDefaults r2
  let m := buildMt5Request r5
  match env.orderSend m with
  | none => { ret := none, request := r5, events := [Event.orderSend m] }
  | some result =>
    if result.retcode ≠ Mt5.TRADE_RETCODE_DONE then
      if result.retcode = Mt5.TRADE_RETCODE_ERROR then
        { ret := none, request := r5, events := [Event.orderSend m] }
      else sendFinish r5 m result
    else sendFinish r5 m result

/-- The symbol existence / visibility check (skipped for
`TRADE_ACTION_REMOVE`), then on to submission. -/
def sendCheckSymbol (env : Env) (act : ℤ) (sym : String) (r : Request) :
    SendOutcome :=
  if act ≠ Mt5.TRADE_ACTION_REMOVE then
    match env.symbolInfo sym with
    | none => sendReject r
    | some info =>
      if ¬ info.visible ∧ ¬ env.symbolSelect sym then sendReject r
      else sendSubmit env r
  else sendSubmit env r

/-- Shallow embedding of `send_order_request`
(`AITrade_MT5/MT5/order_info.py`). -/
def send_order_request (env : Env) (request : Request) : SendOutcome :=
  let volume := request.volume.getD 0
  let price := request.price.getD 0
  let order_type := request.type
  let magic := request.magic
  match request.action with
  | none => sendReject request
  | some act =>
    match request.symbol with
    | none => sendReject request
    | some sym =>
      if (act = Mt5.TRADE_ACTION_DEAL ∨ act = Mt5.TRADE_ACTION_PENDING) ∧
          volume ≤ 0 then sendReject request
      else if (act = Mt5.TRADE_ACTION_DEAL ∨ act = Mt5.TRADE_ACTION_PENDING) ∧
          price ≤ 0 then sendReject request
      else
        let r1 := if magic = none then applyMagicDefault env request else request
        if act = Mt5.TRADE_ACTION_DEAL ∨ act = Mt5.TRADE_ACTION_PENDING then
          if order_type = none then sendReject r1
          else if act = Mt5.TRADE_ACTION_DEAL ∧
              ¬ (order_type = some Mt5.ORDER_TYPE_BUY ∨
                 order_type = some Mt5.ORDER_TYPE_SELL) then
            sendReject r1
          else if act = Mt5.TRADE_ACTION_PENDING ∧
              ¬ (order_type = some Mt5.ORDER_TYPE_BUY_LIMIT ∨
                 order_type = some Mt5.ORDER_TYPE_SELL_LIMIT ∨
                 order_type = some Mt5.ORDER_TYPE_BUY_STOP ∨
                 order_type = some Mt5.ORDER_TYPE_SELL_STOP ∨
                 order_type = some Mt5.ORDER_TYPE_BUY_STOP_LIMIT ∨
                 order_type = some Mt5.ORDER_TYPE_SELL_STOP_LIMIT) then
            sendReject r1
          else sendCheckSymbol env act sym r1
        else sendCheckSymbol env act sym r1

/-- One row of the `order_comments` table (`utils/database.py`). -/
structure CommentRow where
  full_comment : String
  created_time : ℤ
  updated_time : ℤ
deriving Repr, DecidableEq

/-- Contents of the `order_comments` table, keyed by the `ticket`
primary key. -/
def CommentTable := ℤ → Option CommentRow

/-- The durable SQLite file: `none` models a file in which the table has
never been created. -/
def DbFile := Option CommentTable

/-- `init_database`: `CREATE TABLE IF NOT EXISTS order_comments ...`
creates the empty table and leaves an existing table's rows untouched.
The module runs it at import time, so a restarted process runs it again
against the same durable file. -/
def init_database : DbFile → DbFile
  | none => some fun _ => none
  | some t => some t

/-- `save_order_comment`: `INSERT OR REPLACE` on the `ticket` primary key
followed by `commit`; returns the success flag.  Without a table the
statement fails and the `except` branch returns `False`. -/
def save_order_comment (now : ℤ) (db : DbFile) (ticket : ℤ)
    (comment : String) : DbFile × Bool :=
  match db with
  | none => (none, false)
  | some t =>
    (some fun k => if k = ticket then some ⟨comment, now, now⟩ else t k, true)

/-- `get_order_comment`: SELECT `full_comment` by ticket; an absent row or
a database error yields `None`. -/
def get_order_comment (db : DbFile) (ticket : ℤ) : Option String :=
  match db with
  | none => none
  | some t => (t ticket).map CommentRow.full_comment

/-- An advisory recommendation dictionary (the keys `trading.py` reads). -/
structure Rec where
  symbol : Option String := none
  action : Option String := none
  volume : Option ℚ := none
  entry_offset_points : Option ℚ := none
  stop_loss_points : Option ℚ := none
  take_profit_points : Option ℚ := none
  comment : Option String := none
  reasoning : Option String := none
  order_id : Option ℤ := none
deriving Repr, DecidableEq

/-- Per-action result dictionary built by the `trading.py` executors; the
`volume`/`price` keys appear only in a successful buy/sell outcome. -/
structure Outcome where
  symbol : Option String
  action : Option String
  success : Bool
  reason : String
  order_ticket : Option ℤ
  volume : Option ℚ := none
  price : Option ℚ := none
deriving Repr, DecidableEq

def defaultOutcome : Outcome :=
  { symbol := none, action := none, success := false, reason := "",
    order_ticket := none }

def defaultRec : Rec := {}

/-- Shared tail of `execute_close_cancel`: submit the built request and
translate the gateway's reply into the per-action outcome. -/
def closeCancelFinish (env : Env) (symbol action : Option String) (oid : ℤ)
    (params : Request) : Outcome × List Event :=
  let o := send_order_request env params
  match o.ret with
  | some res =>
    if res.retcode = Mt5.TRADE_RETCODE_DONE then
      ({ symbol := symbol, action := action, success := true,
         reason := "执行成功", order_ticket := some oid }, o.events)
    else
      ({ symbol := symbol, action := action, success := false,
         reason := "执行失败: " ++ res.comment, order_ticket := none }, o.events)
  | none =>
    ({ symbol := symbol, action := action, success := false,
       reason := "执行失败: 操作失败", order_ticket := none }, o.events)

/-- The CLOSE branch of `execute_close_cancel` (`trading.py`): verify the
ticket against the venue's open positions, then submit a market close. -/
def executeClose (env : Env) (symbol action : Option String) (oid : ℤ) :
    Outcome × List Event :=
  match env.positionsGet with
  | none =>
    ({ symbol := symbol, action := action, success := false,
       reason := "当前无持仓", order_ticket := none }, [])
  | some [] =>
    ({ symbol := symbol, action := action, success := false,
       reason := "当前无持仓", order_ticket := none }, [])
  | some _ =>
    match env.positionsByTicket oid with
    | [] =>
      ({ symbol := symbol, action := action, success := false,
         reason := "持仓不存在，订单号: " ++ toString oid,
         order_ticket := none }, [])
    | pos :: _ =>
      match tickOpt env symbol with
      | none =>
        ({ symbol := symbol, action := action, success := false,
           reason := "无法获取价格", order_ticket := none }, [])
      | some tk =>
        let dir :=
          if pos.type = Mt5.POSITION_TYPE_BUY then
            (Mt5.ORDER_TYPE_SELL, tk.bid)
          else (Mt5.ORDER_TYPE_BUY, tk.ask)
        let params : Request :=
          { action := some Mt5.TRADE_ACTION_DEAL, symbol := symbol,
            volume := some pos.volume, type := some dir.1,
            price := some dir.2,
            original_comment :=
              some ("AI平仓 " ++ pyStr symbol ++ " 订单" ++ toString oid),
            deviation := some 10,
            type_filling := some Mt5.ORDER_FILLING_IOC,
            type_time := some Mt5.ORDER_TIME_GTC, position := some oid }
        closeCancelFinish env symbol action oid params

/-- Shallow embedding of `execute_close_cancel` (`AITrade_MT5/AI/trading.py`). -/
def execute_close_cancel (env : Env) (rec : Rec) : Outcome × List Event :=
  let symbol := rec.symbol
  let action := rec.action
  match rec.order_id with
  | none =>
    ({ symbol := symbol, action := action, success := false,
       reason := "缺少订单号", order_ticket := none }, [])
  | some oid =>
    if oid = 0 then
      ({ symbol := symbol, action := action, success := false,
         reason := "缺少订单号", order_ticket := none }, [])
    else if action = some "CLOSE" then executeClose env symbol action oid
    else
      let params : Request :=
        { action := some Mt5.TRADE_ACTION_REMOVE, symbol := symbol,
          order := some oid,
          original_comment :=
            some ("AI撤单 " ++ pyStr symbol ++ " 订单" ++ toString oid) }
      closeCancelFinish env symbol action oid params

/-- Outcome of the `except` handler of `execute_modify` when
`mt5.symbol_info(symbol)` returns `None` and `.point` raises
`AttributeError`. -/
def modifyAttributeError (symbol : Option String) : Outcome × List Event :=
  ({ symbol := symbol, action := some "MODIFY", success := false,
     reason := "修改异常: 'NoneType' object has no attribute 'point'",
     order_ticket := none }, [])

/-- Final stage of `execute_modify`: build the SLTP request and submit. -/
def modifySend (env : Env) (rec : Rec) (symbol : Option String) (oid : ℤ)
    (new_sl new_tp : ℚ) : Outcome × List Event :=
  let params : Request :=
    { action := some Mt5.TRADE_ACTION_SLTP, symbol := symbol,
      position := some oid, sl := some new_sl, tp := some new_tp,
      original_comment :=
        some ("AI修改持仓 " ++ pyStr symbol ++ " 订单" ++ toString oid ++ ": " ++
          rec.reasoning.getD "") }
  let o := send_order_request env params
  match o.ret with
  | some res =>
    if res.retcode = Mt5.TRADE_RETCODE_DONE then
      ({ symbol := symbol, action := some "MODIFY", success := true,
         reason := "修改成功", order_ticket := some oid }, o.events)
    else
      ({ symbol := symbol, action := some "MODIFY", success := false,
         reason := "修改失败: " ++ res.comment, order_ticket := none }, o.events)
  | none =>
    ({ symbol := symbol, action := some "MODIFY", success := false,
       reason := "修改失败: 修改失败", order_ticket := none }, o.events)

/-- The take-profit recomputation stage of `execute_modify`. -/
def modifyTpStage (env : Env) (rec : Rec) (symbol : Option String) (oid : ℤ)
    (pos : RawPosition) (new_sl : ℚ) (tpp : ℚ) : Outcome × List Event :=
  if tpp > 0 then
    match symbolInfoOpt env symbol with
    | none => modifyAttributeError symbol
    | some info =>
      let new_tp :=
        if pos.type = Mt5.POSITION_TYPE_BUY then
          pos.price_open + tpp * info.point
        else pos.price_open - tpp * info.point
      modifySend env rec symbol oid new_sl new_tp
  else modifySend env rec symbol oid new_sl pos.tp

/-- Shallow embedding of `execute_modify` (`AITrade_MT5/AI/trading.py`). -/
def execute_modify (env : Env) (rec : Rec) : Outcome × List Event :=
  let symbol := rec.symbol
  let slp := rec.stop_loss_points.getD 0
  let tpp := rec.take_profit_points.getD 0
  match rec.order_id with
  | none =>
    ({ symbol := symbol, action := some "MODIFY", success := false,
       reason := "缺少订单号", order_ticket := none }, [])
  | some oid =>
    if oid = 0 then
      ({ symbol := symbol, action := some "MODIFY", success := false,
         reason := "缺少订单号", order_ticket := none }, [])
    else
      match env.positionsByTicket oid with
      | [] =>
        match env.ordersByTicket oid with
        | _ :: _ =>
          ({ symbol := symbol, action := some "MODIFY", success := false,
             reason := "订单号是挂单，应使用CANCEL而非MODIFY",
             order_ticket := none }, [])
        | [] =>
          ({ symbol := symbol, action := some "MODIFY", success := false,
             reason := "持仓不存在", order_ticket := none }, [])
      | pos :: _ =>
        if slp > 0 then
          match symbolInfoOpt env symbol with
          | none => modifyAttributeError symbol
          | some info =>
            let new_sl :=
              if pos.type = Mt5.POSITION_TYPE_BUY then
                pos.price_open - slp * info.point
              else pos.price_open + slp * info.point
            modifyTpStage env rec symbol oid pos new_sl tpp
        else modifyTpStage env rec symbol oid pos pos.sl tpp

/-- Submission tail of `execute_buy_sell`. -/
def buySellSend (env : Env) (symbol action : Option String)
    (params : Request) : Outcome × List Event :=
  let o := send_order_request env params
  match o.ret with
  | some res =>
    if res.retcode = Mt5.TRADE_RETCODE_DONE then
      ({ symbol := symbol, action := action, success := true,
         reason := "执行成功", order_ticket := some res.order,
         volume := some res.volume, price := some res.price }, o.events)
    else
      ({ symbol := symbol, action := action, success := false,
         reason := "执行失败: " ++ res.comment, order_ticket := none }, o.events)
  | none =>
    ({ symbol := symbol, action := action, success := false,
       reason := "执行失败: 订单发送失败", order_ticket := none }, o.events)

/-- Shallow embedding of `execute_buy_sell` (`AITrade_MT5/AI/trading.py`).
The `account_info` argument is accepted and ignored, as in the source. -/
def execute_buy_sell (env : Env) (rec : Rec) (_account_info : AccountInfo) :
    Outcome × List Event :=
  let symbol := rec.symbol
  let action := rec.action
  let volume := rec.volume.getD (1 / 100)
  match calculate_simple_prices env (symbol.getD "") (pyStr action) volume
      (rec.entry_offset_points.getD 0) (rec.stop_loss_points.getD 20)
      (rec.take_profit_points.getD 30) with
  | .failure err =>
    ({ symbol := symbol, action := action, success := false, reason := err,
       order_ticket := none }, [])
  | .ok r =>
    let ai_comment := rec.comment.getD ""
    let ai_reasoning := rec.reasoning.getD ""
    let full_comment :=
      if ai_reasoning ≠ "" then ai_comment ++ " | " ++ ai_reasoning
      else ai_comment
    let mt5_params : Request :=
      { action := some Mt5.TRADE_ACTION_DEAL, symbol := symbol,
        volume := some volume,
        type := some (if action = some "BUY" then Mt5.ORDER_TYPE_BUY
          else Mt5.ORDER_TYPE_SELL),
        price := some r.entry_price, sl := some r.stop_loss,
        tp := some r.take_profit, original_comment := some full_comment,
        deviation := some 10, type_filling := some Mt5.ORDER_FILLING_IOC,
        type_time := some Mt5.ORDER_TIME_GTC }
    if r.entry_price ≤ 0 then
      ({ symbol := symbol, action := action, success := false,
         reason := "价格计算错误: " ++ toString r.entry_price,
         order_ticket := none }, [])
    else if volume ≤ 0 then
      ({ symbol := symbol, action := action, success := false,
         reason := "交易量错误: " ++ toString volume,
         order_ticket := none }, [])
    else if r.stop_loss > 0 ∨ r.take_profit > 0 then
      match symbolInfoOpt env symbol, tickOpt env symbol with
      | some _, some _ =>
        if mt5_params.type = some Mt5.ORDER_TYPE_BUY then
          if r.stop_loss > 0 ∧ r.stop_loss ≥ r.entry_price then
            ({ symbol := symbol, action := action, success := false,
               reason := "买单止损逻辑错误", order_ticket := none }, [])
          else if r.take_profit > 0 ∧ r.take_profit ≤ r.entry_price then
            ({ symbol := symbol, action := action, success := false,
               reason := "买单止盈逻辑错误", order_ticket := none }, [])
          else buySellSend env symbol action mt5_params
        else if mt5_params.type = some Mt5.ORDER_TYPE_SELL then
          if r.stop_loss > 0 ∧ r.stop_loss ≤ r.entry_price then
            ({ symbol := symbol, action := action, success := false,
               reason := "卖单止损逻辑错误", order_ticket := none }, [])
          else if r.take_profit > 0 ∧ r.take_profit ≥ r.entry_price then
            ({ symbol := symbol, action := action, success := false,
               reason := "卖单止盈逻辑错误", order_ticket := none }, [])
          else buySellSend env symbol action mt5_params
        else buySellSend env symbol action mt5_params
      | _, _ => buySellSend env symbol action mt5_params
    else buySellSend env symbol action mt5_params

/-- One iteration of the `execute_trading_plan` loop: recognize non-trading
placeholders, dispatch CLOSE/CANCEL, MODIFY and BUY/SELL, and record
unknown action kinds as failures. -/
def runRecommendation (env : Env) (ai : AccountInfo) (rec : Rec) :
    Outcome × List Event :=
  let action := rec.action
  if action = some "HOLD" ∨ action = some "NO_TRADE" ∨
      action = some "NO_NEW_POSITIONS" ∨ action = some "WAIT" ∨
      action = some "SKIP" then
    ({ symbol := rec.symbol, action := action, success := true,
       reason := "跳过非交易操作: " ++ pyStr action, order_ticket := none }, [])
  else if action = some "CLOSE" ∨ action = some "CANCEL" then
    execute_close_cancel env rec
  else if action = some "MODIFY" then execute_modify env rec
  else if action = some "BUY" ∨ action = some "SELL" then
    execute_buy_sell env rec ai
  else
    ({ symbol := rec.symbol, action := action, success := false,
       reason := "未知的操作类型: " ++ pyStr action, order_ticket := none }, [])

/-- Shallow embedding of `execute_trading_plan`
(`AITrade_MT5/AI/trading.py`): an empty plan returns immediately, an
unavailable account aborts with an empty result list, and otherwise every
recommendation is executed in order, each appending exactly one outcome. -/
def execute_trading_plan (env : Env) (recommendations : List Rec) :
    List Outcome × List Event :=
  if recommendations.isEmpty then ([], [])
  else
    match env.accountInfo with
    | none => ([], [])
    | some ai =>
      let pairs := recommendations.map (runRecommendation env ai)
      (pairs.map Prod.fst, (pairs.map Prod.snd).flatten)

/-- The standardized position dictionary built by
`TakeProfitMonitor.get_active_positions_silent` (`src/AI/position_monitor.py`). -/
structure PosDict where
  ticket : ℤ
  symbol : String
  position_type : String
  volume : ℚ
  price_open : ℚ
  sl : ℚ
  tp : ℚ
  comment : String
  magic : ℤ
  time : ℤ
  profit : ℚ
deriving Repr, DecidableEq

/-- Conversion of a venue position into the monitor's dictionary shape,
with the `position_type_map.get(..., f"UNKNOWN...")` default. -/
def toPosDict (p : RawPosition) : PosDict :=
  { ticket := p.ticket, symbol := p.symbol,
    position_type :=
      if p.type = Mt5.POSITION_TYPE_BUY then "Buy"
      else if p.type = Mt5.POSITION_TYPE_SELL then "Sell"
      else "UNKNOWN(" ++ toString p.type ++ ")",
    volume := p.volume, price_open := p.price_open, sl := p.sl, tp := p.tp,
    comment := p.comment, magic := p.magic, time := p.time,
    profit := p.profit }

/-- The monitor's mutable state: `self.price_cache` and
`self.last_cache_update`, both plain dictionaries keyed by symbol. -/
structure MonState where
  price_cache : List (String × ℚ)
  last_cache_update : List (String × ℚ)
deriving Repr, DecidableEq

/-- Dictionary membership / read for the cache maps. -/
def alistLookup (l : List (String × ℚ)) (k : String) : Option ℚ :=
  (l.find? fun p => p.1 == k).map Prod.snd

/-- Dictionary assignment for the cache maps. -/
def alistInsert (l : List (String × ℚ)) (k : String) (v : ℚ) :
    List (String × ℚ) :=
  if (l.find? fun p => p.1 == k).isSome then
    l.map fun p => if p.1 == k then (k, v) else p
  else l ++ [(k, v)]

namespace Monitor

/-- Cache-miss path of `TakeProfitMonitor.get_current_price`: fetch the
quote, then store the bid and the fetch time in both cache maps. -/
def refreshPrice (env : Env) (st : MonState) (symbol : String) :
    Option ℚ × MonState × List Event :=
  match env.tick symbol with
  | none => (none, st, [Event.quoteFetch symbol])
  | some tk =>
    (some tk.bid,
     { price_cache := alistInsert st.price_cache symbol tk.bid,
       last_cache_update := alistInsert st.last_cache_update symbol env.now },
     [Event.quoteFetch symbol])

/-- `TakeProfitMonitor.get_current_price`: serve from the cache while the
entry is younger than the TTL, otherwise refresh. -/
def get_current_price (env : Env) (st : MonState) (symbol : String) :
    Option ℚ × MonState × List Event :=
  match alistLookup st.price_cache symbol,
      alistLookup st.last_cache_update symbol with
  | some cached, some t0 =>
    if env.now - t0 < env.cacheTtl then (some cached, st, [])
    else refreshPrice env st symbol
  | _, _ => refreshPrice env st symbol

/-- `TakeProfitMonitor.get_active_positions_silent`: a `None` or zero
position count short-circuits to the empty list; a failed listing yields
`None`; otherwise positions are filtered by the configured magic number. -/
def get_active_positions_silent (env : Env) : Option (List PosDict) :=
  match env.positionsTotal with
  | none => some []
  | some 0 => some []
  | some _ =>
    match env.positionsGet with
    | none => none
    | some ps =>
      some ((ps.filter fun p => p.magic = env.configMagic).map toPosDict)

/-- `TakeProfitMonitor.check_position_take_profit`: positions without a
target (`tp ≤ 0`) are skipped outright; otherwise the cached/live bid is
compared against the target according to the position side. -/
def check_position_take_profit (env : Env) (st : MonState) (pos : PosDict) :
    Bool × MonState × List Event :=
  let tp_price := pos.tp
  if tp_price ≤ 0 then (false, st, [])
  else
    match get_current_price env st pos.symbol with
    | (none, st1, evs) => (false, st1, evs)
    | (some current_price, st1, evs) =>
      if pos.position_type = "Buy" then
        (decide (current_price ≥ tp_price), st1, evs)
      else if pos.position_type = "Sell" then
        (decide (current_price ≤ tp_price), st1, evs)
      else (false, st1, evs)

/-- `TakeProfitMonitor.close_position_by_take_profit`: fetch the live
quote and submit an opposite-side deal through `send_order_request`. -/
def close_position_by_take_profit (env : Env) (pos : PosDict) :
    Bool × List Event :=
  match env.tick pos.symbol with
  | none => (false, [Event.quoteFetch pos.symbol])
  | some tk =>
    let dir :=
      if pos.position_type = "Buy" then (Mt5.ORDER_TYPE_SELL, tk.bid)
      else (Mt5.ORDER_TYPE_BUY, tk.ask)
    let close_request : Request :=
      { action := some Mt5.TRADE_ACTION_DEAL, symbol := some pos.symbol,
        volume := some pos.volume, type := some dir.1, price := some dir.2,
        position := some pos.ticket, deviation := some 10,
        type_filling := some Mt5.ORDER_FILLING_IOC,
        type_time := some Mt5.ORDER_TIME_GTC,
        original_comment :=
          some ("监控止盈自动平仓 " ++ pos.symbol ++ " 订单" ++
            toString pos.ticket) }
    let o := send_order_request env close_request
    match o.ret with
    | some res =>
      (decide (res.retcode = Mt5.TRADE_RETCODE_DONE),
       Event.quoteFetch pos.symbol :: o.events)
    | none => (false, Event.quoteFetch pos.symbol :: o.events)

/-- Loop body step for one position: evaluate the trigger and, when it
fires, close and count. -/
def tickStep (env : Env) (acc : MonState × List Event × ℕ) (pos : PosDict) :
    MonState × List Event × ℕ :=
  let st0 := acc.1
  let evs0 := acc.2.1
  let closed := acc.2.2
  match check_position_take_profit env st0 pos with
  | (true, st1, evs1) =>
    let c := close_position_by_take_profit env pos
    (st1, evs0 ++ evs1 ++ c.2, if c.1 then closed + 1 else closed)
  | (false, st1, evs1) => (st1, evs0 ++ evs1, closed)

/-- One iteration of `TakeProfitMonitor.monitor_loop`: the returned
rational is the sleep taken at the end of the iteration. -/
def monitor_tick (env : Env) (st : MonState) :
    MonState × List Event × ℚ :=
  if ¬ env.enabled then (st, [], env.monitorInterval)
  else
    match get_active_positions_silent env with
    | none => (st, [], env.monitorInterval)
    | some [] =>
      ({ price_cache := [], last_cache_update := [] }, [],
       env.monitorInterval)
    | some positions =>
      let r := positions.foldl (tickStep env) (st, [], 0)
      if r.2.2 > 0 then (r.1, r.2.1, 2) else (r.1, r.2.1, env.monitorInterval)

end Monitor

theorem roundHalfEven_intCast (n : ℤ) : roundHalfEven (n : ℚ) = n := by
  unfold roundHalfEven
  rw [Int.floor_intCast]
  norm_num

theorem format_price_grid (d : ℕ) (k : ℤ) (h : 0 < (k : ℚ) / 10 ^ d) :
    format_price d ((k : ℚ) / 10 ^ d) = (k : ℚ) / 10 ^ d := by
  unfold format_price
  rw [if_neg (not_le.mpr h)]
  have h10 : (10 : ℚ) ^ d ≠ 0 := by positivity
  rw [div_mul_cancel₀ _ h10, roundHalfEven_intCast]

/-- `format_price` is the identity on positive prices that sit on the
instrument's decimal grid. -/
theorem format_price_fix (info : SymbolInfo)
    (hpt : info.point = 1 / 10 ^ info.digits) (x : ℚ) (k : ℤ)
    (hk : x = (k : ℚ) * info.point) (hx : 0 < x) :
    format_price info.digits x = x := by
  have hx' : x = (k : ℚ) / 10 ^ info.digits := by rw [hk, hpt, mul_one_div]
  rw [hx']
  exact format_price_grid _ _ (hx' ▸ hx)

/-- Raw (pre-rounding) entry price for a BUY in `calculate_simple_prices`. -/
def buyRawEntry (tk : Tick) (info : SymbolInfo) (qO : ℚ) : ℚ :=
  if qO ≠ 0 then tk.ask + qO * info.point else tk.ask

/-- Raw stop-loss for a BUY in `calculate_simple_prices`. -/
def buyRawStop (tk : Tick) (info : SymbolInfo) (qO qS : ℚ) : ℚ :=
  if qS > 0 then
    let eff := max qS (min_effective_distance_of info : ℚ)
    let sl := buyRawEntry tk info qO - eff * info.point
    if sl ≥ tk.bid then
      tk.bid - (min_effective_distance_of info : ℚ) * info.point
    else sl
  else 0

/-- Raw take-profit for a BUY in `calculate_simple_prices`. -/
def buyRawTp (tk : Tick) (info : SymbolInfo) (qO qT : ℚ) : ℚ :=
  if qT > 0 then
    buyRawEntry tk info qO +
      max qT ((info.spread + safety_buffer : ℤ) : ℚ) * info.point
  else 0

/-- Raw entry price for a SELL in `calculate_simple_prices`. -/
def sellRawEntry (tk : Tick) (info : SymbolInfo) (qO : ℚ) : ℚ :=
  if qO ≠ 0 then tk.bid + qO * info.point else tk.bid

/-- Raw stop-loss for a SELL in `calculate_simple_prices`. -/
def sellRawStop (tk : Tick) (info : SymbolInfo) (qO qS : ℚ) : ℚ :=
  if qS > 0 then
    let eff := max qS (min_effective_distance_of info : ℚ)
    let sl := sellRawEntry tk info qO + eff * info.point
    if sl ≤ tk.ask then
      tk.ask + (min_effective_distance_of info : ℚ) * info.point
    else sl
  else 0

/-- Raw take-profit for a SELL in `calculate_simple_prices`. -/
def sellRawTp (tk : Tick) (info : SymbolInfo) (qO qT : ℚ) : ℚ :=
  if qT > 0 then
    sellRawEntry tk info qO -
      max qT ((info.spread + safety_buffer : ℤ) : ℚ) * info.point
  else 0

/-- Shape of a successful BUY normalization. -/
theorem calc_eq_buy (env : Env) (sym : String) (tk : Tick)
    (info : SymbolInfo) (vol qO qS qT : ℚ) (htick : env.tick sym = some tk)
    (hinfo : env.symbolInfo sym = some info) :
    calculate_simple_prices env sym "BUY" vol qO qS qT =
      CalcResult.ok
        { symbol := sym, action := "BUY", volume := vol,
          entry_price := format_price info.digits (buyRawEntry tk info qO),
          stop_loss := format_price info.digits (buyRawStop tk info qO qS),
          take_profit := format_price info.digits (buyRawTp tk info qO qT),
          current_price := format_price info.digits tk.ask,
          spread_points := info.spread,
          min_stops_level := info.trade_stops_level,
          min_effective_distance := min_effective_distance_of info } := by
  simp only [calculate_simple_prices, htick, hinfo, buyRawEntry, buyRawStop,
    buyRawTp]
  norm_num

/-- Shape of a successful SELL normalization. -/
theorem calc_eq_sell (env : Env) (sym : String) (tk : Tick)
    (info : SymbolInfo) (vol qO qS qT : ℚ) (htick : env.tick sym = some tk)
    (hinfo : env.symbolInfo sym = some info) :
    calculate_simple_prices env sym "SELL" vol qO qS qT =
      CalcResult.ok
        { symbol := sym, action := "SELL", volume := vol,
          entry_price := format_price info.digits (sellRawEntry tk info qO),
          stop_loss := format_price info.digits (sellRawStop tk info qO qS),
          take_profit := format_price info.digits (sellRawTp tk info qO qT),
          current_price := format_price info.digits tk.bid,
          spread_points := info.spread,
          min_stops_level := info.trade_stops_level,
          min_effective_distance := min_effective_distance_of info } := by
  simp only [calculate_simple_prices, htick, hinfo, sellRawEntry, sellRawStop,
    sellRawTp]
  simp only [if_neg (show ¬("SELL" = "BUY") from by decide)]

/-- Claim C1 (amended): for OPEN BUY normalizations with both a stop and a
target requested, on-grid quotes (`point = 10^-digits`, bid/ask integer
multiples of the point), integer requested point distances, nonnegative
spread, and raw stop/target prices that stay positive, the returned
prices satisfy stop < entry < target and the stop sits at least
`max(minimum-stop-distance, spread + safety buffer)` points below the
entry; the mirror ordering and floor hold for OPEN SELL.  (As stated the
original claim fails: a large negative entry offset drives the raw prices
non-positive, `format_price` collapses them to 0, and the ordering is
violated — see the counterexample.) -/
theorem calc_simple_prices_ordering_and_floor (env : Env) (sym : String)
    (tk : Tick) (info : SymbolInfo) (vol : ℚ) (O S T A B : ℤ)
    (htick : env.tick sym = some tk)
    (hinfo : env.symbolInfo sym = some info)
    (hpt : info.point = 1 / 10 ^ info.digits)
    (hbid : tk.bid = (B : ℚ) * info.point)
    (hask : tk.ask = (A : ℚ) * info.point)
    (hS : 0 < S) (hT : 0 < T) (hspread : 0 ≤ info.spread)
    (hbuyClampPos :
      0 < tk.bid - (min_effective_distance_of info : ℚ) * info.point)
    (hbuyStopPos :
      0 < tk.ask + (O : ℚ) * info.point -
        max (S : ℚ) (min_effective_distance_of info : ℚ) * info.point)
    (hsellTpPos :
      0 < tk.bid + (O : ℚ) * info.point -
        max (T : ℚ) ((info.spread + safety_buffer : ℤ) : ℚ) * info.point) :
    (∃ r, calculate_simple_prices env sym "BUY" vol (O : ℚ) (S : ℚ) (T : ℚ) =
        CalcResult.ok r ∧
      r.stop_loss < r.entry_price ∧ r.entry_price < r.take_profit ∧
      (min_effective_distance_of info : ℚ) * info.point ≤
        r.entry_price - r.stop_loss) ∧
    (∃ r, calculate_simple_prices env sym "SELL" vol (O : ℚ) (S : ℚ) (T : ℚ) =
        CalcResult.ok r ∧
      r.take_profit < r.entry_price ∧ r.entry_price < r.stop_loss ∧
      (min_effective_distance_of info : ℚ) * info.point ≤
        r.stop_loss - r.entry_price) := by
  have hpt0 : 0 < info.point := by rw [hpt]; positivity
  have hM5 : (5 : ℤ) ≤ min_effective_distance_of info := by
    unfold min_effective_distance_of safety_buffer
    refine le_trans ?_ (le_max_right _ _)
    linarith
  have hMq : (5 : ℚ) ≤ (min_effective_distance_of info : ℚ) := by
    exact_mod_cast hM5
  have hM0 : (0 : ℚ) < (min_effective_distance_of info : ℚ) := by linarith
  have hMpt : 0 < (min_effective_distance_of info : ℚ) * info.point :=
    mul_pos hM0 hpt0
  have hSq : (0 : ℚ) < (S : ℚ) := by exact_mod_cast hS
  have hTq : (0 : ℚ) < (T : ℚ) := by exact_mod_cast hT
  have hMaxS : (min_effective_distance_of info : ℚ) ≤
      max (S : ℚ) (min_effective_distance_of info : ℚ) := le_max_right _ _
  have hMaxSPt : (min_effective_distance_of info : ℚ) * info.point ≤
      max (S : ℚ) (min_effective_distance_of info : ℚ) * info.point :=
    mul_le_mul_of_nonneg_right hMaxS hpt0.le
  have hMaxSPt0 : 0 < max (S : ℚ) (min_effective_distance_of info : ℚ) *
      info.point := lt_of_lt_of_le hMpt hMaxSPt
  have hProfPt0 : 0 < max (T : ℚ) ((info.spread + safety_buffer : ℤ) : ℚ) *
      info.point :=
    mul_pos (lt_of_lt_of_le hTq (le_max_left _ _)) hpt0
  have hBuyEntry : buyRawEntry tk info (O : ℚ) = tk.ask + (O : ℚ) * info.point := by
    rcases eq_or_ne ((O : ℚ)) 0 with h0 | h0
    · simp [buyRawEntry, h0]
    · simp [buyRawEntry, h0]
  have hSellEntry : sellRawEntry tk info (O : ℚ) = tk.bid + (O : ℚ) * info.point := by
    rcases eq_or_ne ((O : ℚ)) 0 with h0 | h0
    · simp [sellRawEntry, h0]
    · simp [sellRawEntry, h0]
  have hBuyEntryPos : 0 < buyRawEntry tk info (O : ℚ) := by
    rw [hBuyEntry]; linarith
  have hBuyEntryGrid : buyRawEntry tk info (O : ℚ) =
      ((A + O : ℤ) : ℚ) * info.point := by
    rw [hBuyEntry, hask]; push_cast; ring
  have hBuyTp : buyRawTp tk info (O : ℚ) (T : ℚ) = buyRawEntry tk info (O : ℚ) +
      max (T : ℚ) ((info.spread + safety_buffer : ℤ) : ℚ) * info.point := by
    simp [buyRawTp, hTq]
  have hBuyTpPos : 0 < buyRawTp tk info (O : ℚ) (T : ℚ) := by
    rw [hBuyTp]; linarith
  have hBuyTpGrid : buyRawTp tk info (O : ℚ) (T : ℚ) =
      ((A + O + max T (info.spread + safety_buffer) : ℤ) : ℚ) * info.point := by
    rw [hBuyTp, hBuyEntry, hask]; push_cast; ring
  have hSellEntryPos : 0 < sellRawEntry tk info (O : ℚ) := by
    rw [hSellEntry]; nlinarith [hsellTpPos, hProfPt0]
  have hSellEntryGrid : sellRawEntry tk info (O : ℚ) =
      ((B + O : ℤ) : ℚ) * info.point := by
    rw [hSellEntry, hbid]; push_cast; ring
  have hSellTp : sellRawTp tk info (O : ℚ) (T : ℚ) = sellRawEntry tk info (O : ℚ) -
      max (T : ℚ) ((info.spread + safety_buffer : ℤ) : ℚ) * info.point := by
    simp [sellRawTp, hTq]
  have hSellTpPos : 0 < sellRawTp tk info (O : ℚ) (T : ℚ) := by
    rw [hSellTp, hSellEntry]; linarith
  have hSellTpGrid : sellRawTp tk info (O : ℚ) (T : ℚ) =
      ((B + O - max T (info.spread + safety_buffer) : ℤ) : ℚ) * info.point := by
    rw [hSellTp, hSellEntry, hbid]; push_cast; ring
  constructor
  · -- OPEN BUY
    rw [calc_eq_buy env sym tk info vol _ _ _ htick hinfo]
    refine ⟨_, rfl, ?_⟩
    by_cases hclamp : tk.bid ≤ buyRawEntry tk info (O : ℚ) -
        max (S : ℚ) (min_effective_distance_of info : ℚ) * info.point
    · have hStop : buyRawStop tk info (O : ℚ) (S : ℚ) =
          tk.bid - (min_effective_distance_of info : ℚ) * info.point := by
        simp only [buyRawStop, if_pos hSq]
        rw [if_pos hclamp]
      have hStopPos : 0 < buyRawStop tk info (O : ℚ) (S : ℚ) := by
        rw [hStop]; exact hbuyClampPos
      have hStopGrid : buyRawStop tk info (O : ℚ) (S : ℚ) =
          ((B - min_effective_distance_of info : ℤ) : ℚ) * info.point := by
        rw [hStop, hbid]; push_cast; ring
      have hFe := format_price_fix info hpt _ _ hBuyEntryGrid hBuyEntryPos
      have hFs := format_price_fix info hpt _ _ hStopGrid hStopPos
      have hFt := format_price_fix info hpt _ _ hBuyTpGrid hBuyTpPos
      refine ⟨?_, ?_, ?_⟩ <;> simp only [hFe, hFs, hFt] <;>
        simp only [hStop, hBuyTp] <;> linarith
    · have hclamp' := lt_of_not_le hclamp
      have hStop : buyRawStop tk info (O : ℚ) (S : ℚ) =
          buyRawEntry tk info (O : ℚ) -
            max (S : ℚ) (min_effective_distance_of info : ℚ) * info.point := by
        simp only [buyRawStop, if_pos hSq]
        rw [if_neg hclamp]
      have hStopPos : 0 < buyRawStop tk info (O : ℚ) (S : ℚ) := by
        rw [hStop, hBuyEntry]; linarith
      have hStopGrid : buyRawStop tk info (O : ℚ) (S : ℚ) =
          ((A + O - max S (min_effective_distance_of info) : ℤ) : ℚ) *
            info.point := by
        rw [hStop, hBuyEntry, hask]; push_cast; ring
      have hFe := format_price_fix info hpt _ _ hBuyEntryGrid hBuyEntryPos
      have hFs := format_price_fix info hpt _ _ hStopGrid hStopPos
      have hFt := format_price_fix info hpt _ _ hBuyTpGrid hBuyTpPos
      refine ⟨?_, ?_, ?_⟩ <;> simp only [hFe, hFs, hFt] <;>
        simp only [hStop, hBuyTp] <;> linarith
  · -- OPEN SELL
    rw [calc_eq_sell env sym tk info vol _ _ _ htick hinfo]
    refine ⟨_, rfl, ?_⟩
    by_cases hclamp : sellRawEntry tk info (O : ℚ) +
        max (S : ℚ) (min_effective_distance_of info : ℚ) * info.point ≤ tk.ask
    · have hStop : sellRawStop tk info (O : ℚ) (S : ℚ) =
          tk.ask + (min_effective_distance_of info : ℚ) * info.point := by
        simp only [sellRawStop, if_pos hSq]
        rw [if_pos hclamp]
      have hStopPos : 0 < sellRawStop tk info (O : ℚ) (S : ℚ) := by
        rw [hStop]; nlinarith [hSellEntryPos, hMaxSPt0]
      have hStopGrid : sellRawStop tk info (O : ℚ) (S : ℚ) =
          ((A + min_effective_distance_of info : ℤ) : ℚ) * info.point := by
        rw [hStop, hask]; push_cast; ring
      have hFe := format_price_fix info hpt _ _ hSellEntryGrid hSellEntryPos
      have hFs := format_price_fix info hpt _ _ hStopGrid hStopPos
      have hFt := format_price_fix info hpt _ _ hSellTpGrid hSellTpPos
      refine ⟨?_, ?_, ?_⟩ <;> simp only [hFe, hFs, hFt] <;>
        simp only [hStop, hSellTp] <;> linarith
    · have hclamp' := lt_of_not_le hclamp
      have hStop : sellRawStop tk info (O : ℚ) (S : ℚ) =
          sellRawEntry tk info (O : ℚ) +
            max (S : ℚ) (min_effective_distance_of info : ℚ) * info.point := by
        simp only [sellRawStop, if_pos hSq]
        rw [if_neg hclamp]
      have hStopPos : 0 < sellRawStop tk info (O : ℚ) (S : ℚ) := by
        rw [hStop]; linarith
      have hStopGrid : sellRawStop tk info (O : ℚ) (S : ℚ) =
          ((B + O + max S (min_effective_distance_of info) : ℤ) : ℚ) *
            info.point := by
        rw [hStop, hSellEntry, hbid]; push_cast; ring
      have hFe := format_price_fix info hpt _ _ hSellEntryGrid hSellEntryPos
      have hFs := format_price_fix info hpt _ _ hStopGrid hStopPos
      have hFt := format_price_fix info hpt _ _ hSellTpGrid hSellTpPos
      refine ⟨?_, ?_, ?_⟩ <;> simp only [hFe, hFs, hFt] <;>
        simp only [hStop, hSellTp] <;> linarith

/-- A base environment in which every venue lookup fails; concrete
scenarios override the relevant fields. -/
def envBase : Env :=
  { tick := fun _ => none, symbolInfo := fun _ => none,
    symbolSelect := fun _ => false, orderSend := fun _ => none,
    configMagic := 100001, positionsTotal := none, positionsGet := none,
    positionsByTicket := fun _ => [], ordersByTicket := fun _ => [],
    accountInfo := none, enabled := true, monitorInterval := 1,
    cacheTtl := 1 / 2, now := 0 }

/-- EURUSD quote of the spec scenario: bid 1.10500, spread 2 points. -/
def tkEURUSD : Tick := { bid := 110500 / 100000, ask := 110502 / 100000 }

/-- EURUSD metadata of the spec scenario: 5 digits, spread 2 points,
minimum stop distance 5 points. -/
def infoEURUSD : SymbolInfo :=
  { point := 1 / 100000, digits := 5, spread := 2, trade_stops_level := 5,
    visible := true }

/-- Environment quoting the EURUSD scenario. -/
def envEURUSD : Env :=
  { envBase with
    tick := fun s => if s = "EURUSD" then some tkEURUSD else none,
    symbolInfo := fun s => if s = "EURUSD" then some infoEURUSD else none }

/-- `format_price` fixes any positive price with an exact `d`-decimal
representation. -/
theorem format_price_eq (d : ℕ) (k : ℤ) (x : ℚ) (hx : x = (k : ℚ) / 10 ^ d)
    (h0 : 0 < x) : format_price d x = x := by
  rw [hx] at h0 ⊢
  exact format_price_grid d k h0

/-- Claim C2: in the spec scenario (bid 1.10500, spread 2 points, minimum
stop distance 5 points, buffer 5 points, requested stop 3 points and
requested target 4 points), the BUY normalization clamps both the
effective stop distance and the effective target distance to exactly 7
points (`max(5, 2+5)`): the entry is the ask and both the stop and target
sit exactly 7 points away. -/
theorem calc_c2_scenario_clamps_to_seven_points :
    ∃ r, calculate_simple_prices envEURUSD "EURUSD" "BUY" (1 / 100) 0 3 4 =
        CalcResult.ok r ∧
      r.entry_price - r.stop_loss = 7 * infoEURUSD.point ∧
      r.take_profit - r.entry_price = 7 * infoEURUSD.point ∧
      r.min_effective_distance = 7 ∧
      r.entry_price = tkEURUSD.ask := by
  have h1 : envEURUSD.tick "EURUSD" = some tkEURUSD := by simp [envEURUSD]
  have h2 : envEURUSD.symbolInfo "EURUSD" = some infoEURUSD := by
    simp [envEURUSD]
  have hd : infoEURUSD.digits = 5 := rfl
  have hpt : infoEURUSD.point = 1 / 100000 := rfl
  have hMd : min_effective_distance_of infoEURUSD = 7 := by
    norm_num [min_effective_distance_of, infoEURUSD, safety_buffer]
  have hE : buyRawEntry tkEURUSD infoEURUSD 0 = 110502 / 100000 := by
    norm_num [buyRawEntry, tkEURUSD]
  have hSt : buyRawStop tkEURUSD infoEURUSD 0 3 = 110495 / 100000 := by
    simp only [buyRawStop, hE, hMd, hpt,
      show tkEURUSD.bid = 110500 / 100000 from rfl]
    norm_num
  have hTp : buyRawTp tkEURUSD infoEURUSD 0 4 = 110509 / 100000 := by
    simp only [buyRawTp, hE, hpt, safety_buffer,
      show infoEURUSD.spread = 2 from rfl]
    norm_num
  have hFe : format_price infoEURUSD.digits (buyRawEntry tkEURUSD infoEURUSD 0) =
      110502 / 100000 := by
    rw [hE, hd]; exact format_price_eq 5 110502 _ (by norm_num) (by norm_num)
  have hFs : format_price infoEURUSD.digits (buyRawStop tkEURUSD infoEURUSD 0 3) =
      110495 / 100000 := by
    rw [hSt, hd]; exact format_price_eq 5 110495 _ (by norm_num) (by norm_num)
  have hFt : format_price infoEURUSD.digits (buyRawTp tkEURUSD infoEURUSD 0 4) =
      110509 / 100000 := by
    rw [hTp, hd]; exact format_price_eq 5 110509 _ (by norm_num) (by norm_num)
  rw [calc_eq_buy envEURUSD "EURUSD" tkEURUSD infoEURUSD (1 / 100) 0 3 4 h1 h2]
  refine ⟨_, rfl, ?_, ?_, ?_, ?_⟩
  · simp only [hFe, hFs]; norm_num [infoEURUSD]
  · simp only [hFe, hFt]; norm_num [infoEURUSD]
  · simp only [hMd]
  · simp only [hFe]; norm_num [tkEURUSD]

/-- Quote used by the C1 counterexample. -/
def tkCex : Tick := { bid := 10, ask := 10 }

/-- Instrument used by the C1 counterexample (integer prices). -/
def infoCex : SymbolInfo :=
  { point := 1, digits := 0, spread := 0, trade_stops_level := 0,
    visible := true }

/-- Environment of the C1 counterexample. -/
def envCex : Env :=
  { envBase with
    tick := fun s => if s = "X" then some tkCex else none,
    symbolInfo := fun s => if s = "X" then some infoCex else none }

/-- The dict `calculate_simple_prices` returns in the C1 counterexample. -/
def cexPriceResult : PriceResult :=
  { symbol := "X", action := "BUY", volume := 1, entry_price := 0,
    stop_loss := 0, take_profit := 0, current_price := 10,
    spread_points := 0, min_stops_level := 0, min_effective_distance := 5 }

/-- Counterexample to claim C1 as stated: a BUY normalization with entry
offset -20 points on a 10-quoted instrument succeeds and requests both a
stop (3 > 0) and a target (4 > 0), yet returns entry 0, stop 0 and
target 0 (the raw prices are negative and `format_price` collapses them),
so `stop_loss < entry_price` fails. -/
theorem calc_c1_counterexample :
    calculate_simple_prices envCex "X" "BUY" 1 (-20) 3 4 =
      CalcResult.ok cexPriceResult ∧
    ¬ (cexPriceResult.stop_loss < cexPriceResult.entry_price) := by
  have h1 : envCex.tick "X" = some tkCex := by simp [envCex]
  have h2 : envCex.symbolInfo "X" = some infoCex := by simp [envCex]
  have hd : infoCex.digits = 0 := rfl
  have hpt : infoCex.point = 1 := rfl
  have hMd : min_effective_distance_of infoCex = 5 := by
    norm_num [min_effective_distance_of, infoCex, safety_buffer]
  have hE : buyRawEntry tkCex infoCex (-20) = -10 := by
    norm_num [buyRawEntry, tkCex, infoCex]
  have hSt : buyRawStop tkCex infoCex (-20) 3 = -15 := by
    simp only [buyRawStop, hE, hMd, hpt, show tkCex.bid = 10 from rfl]
    norm_num
  have hTp : buyRawTp tkCex infoCex (-20) 4 = -5 := by
    simp only [buyRawTp, hE, hpt, safety_buffer,
      show infoCex.spread = 0 from rfl]
    norm_num
  have hFe : format_price infoCex.digits (buyRawEntry tkCex infoCex (-20)) = 0 := by
    rw [hE, hd]; norm_num [format_price]
  have hFs : format_price infoCex.digits (buyRawStop tkCex infoCex (-20) 3) = 0 := by
    rw [hSt, hd]; norm_num [format_price]
  have hFt : format_price infoCex.digits (buyRawTp tkCex infoCex (-20) 4) = 0 := by
    rw [hTp, hd]; norm_num [format_price]
  have hFc : format_price infoCex.digits tkCex.ask = 10 := by
    rw [show tkCex.ask = (10 : ℚ) from rfl, hd]
    exact format_price_eq 0 10 _ (by norm_num) (by norm_num)
  rw [calc_eq_buy envCex "X" tkCex infoCex 1 (-20) 3 4 h1 h2]
  constructor
  · simp only [hFe, hFs, hFt, hFc, hMd, cexPriceResult,
      show infoCex.spread = 0 from rfl,
      show infoCex.trade_stops_level = 0 from rfl]
  · norm_num [cexPriceResult]

/-- Witness instantiating the amended C1 theorem in the EURUSD scenario
(offset 0, requested stop 3 points, requested target 4 points). -/
theorem calc_simple_prices_ordering_and_floor_witness :
    (∃ r, calculate_simple_prices envEURUSD "EURUSD" "BUY" (1 / 100)
        ((0 : ℤ) : ℚ) ((3 : ℤ) : ℚ) ((4 : ℤ) : ℚ) = CalcResult.ok r ∧
      r.stop_loss < r.entry_price ∧ r.entry_price < r.take_profit ∧
      (min_effective_distance_of infoEURUSD : ℚ) * infoEURUSD.point ≤
        r.entry_price - r.stop_loss) ∧
    (∃ r, calculate_simple_prices envEURUSD "EURUSD" "SELL" (1 / 100)
        ((0 : ℤ) : ℚ) ((3 : ℤ) : ℚ) ((4 : ℤ) : ℚ) = CalcResult.ok r ∧
      r.take_profit < r.entry_price ∧ r.entry_price < r.stop_loss ∧
      (min_effective_distance_of infoEURUSD : ℚ) * infoEURUSD.point ≤
        r.stop_loss - r.entry_price) :=
  calc_simple_prices_ordering_and_floor envEURUSD "EURUSD" tkEURUSD
    infoEURUSD (1 / 100) 0 3 4 110502 110500
    (by simp [envEURUSD]) (by simp [envEURUSD])
    (by norm_num [infoEURUSD])
    (by norm_num [tkEURUSD, infoEURUSD])
    (by norm_num [tkEURUSD, infoEURUSD])
    (by norm_num) (by norm_num)
    (by norm_num [infoEURUSD])
    (by norm_num [tkEURUSD, infoEURUSD, min_effective_distance_of,
      safety_buffer])
    (by norm_num [tkEURUSD, infoEURUSD, min_effective_distance_of,
      safety_buffer])
    (by norm_num [tkEURUSD, infoEURUSD, safety_buffer])

/-- Claim C6: `save_order_comment(t, s)` followed by `get_order_comment(t)`
returns exactly `s` (insert-or-replace upsert keyed by ticket), including
across a simulated process restart (`init_database` re-run against the
same durable file). -/
theorem save_get_roundtrip (file : DbFile) (t : ℤ) (s : String) (now : ℤ) :
    get_order_comment (save_order_comment now (init_database file) t s).1 t =
      some s ∧
    get_order_comment
      (init_database (save_order_comment now (init_database file) t s).1) t =
      some s := by
  cases file with
  | none => simp [init_database, save_order_comment, get_order_comment]
  | some tbl => simp [init_database, save_order_comment, get_order_comment]

/-- Claim C3 (amended): `send_order_request` rejects, before any venue
submission, every TRADE_ACTION_DEAL request whose order type is not BUY
or SELL, and every TRADE_ACTION_PENDING request whose order type is not
one of the SIX pending variants (the four limit/stop types plus the two
stop-limit types): it returns `None` and emits no event.  (The original
claim said pending actions accept only the FOUR limit/stop variants; the
code also accepts BUY_STOP_LIMIT and SELL_STOP_LIMIT — see the
counterexample.) -/
theorem send_order_request_action_type_validation (env : Env) (req : Request)
    (act ot : ℤ) (ha : req.action = some act) (hot : req.type = some ot)
    (hbad :
      (act = Mt5.TRADE_ACTION_DEAL ∧
        ¬ (ot = Mt5.ORDER_TYPE_BUY ∨ ot = Mt5.ORDER_TYPE_SELL)) ∨
      (act = Mt5.TRADE_ACTION_PENDING ∧
        ¬ (ot = Mt5.ORDER_TYPE_BUY_LIMIT ∨ ot = Mt5.ORDER_TYPE_SELL_LIMIT ∨
           ot = Mt5.ORDER_TYPE_BUY_STOP ∨ ot = Mt5.ORDER_TYPE_SELL_STOP ∨
           ot = Mt5.ORDER_TYPE_BUY_STOP_LIMIT ∨
           ot = Mt5.ORDER_TYPE_SELL_STOP_LIMIT))) :
    (send_order_request env req).ret = none ∧
    (send_order_request env req).events = [] := by
  rcases hbad with ⟨hact, hno⟩ | ⟨hact, hno⟩ <;> subst hact <;>
    cases hsym : req.symbol <;>
      simp only [send_order_request, ha, hsym, hot] <;>
      first
        | exact ⟨rfl, rfl⟩
        | (split_ifs with h1 h2 h3 h4 h5 <;>
            simp_all [sendReject, Mt5.TRADE_ACTION_DEAL,
              Mt5.TRADE_ACTION_PENDING])

/-- A visible instrument for gateway scenarios. -/
def infoVisible : SymbolInfo :=
  { point := 1 / 100, digits := 2, spread := 1, trade_stops_level := 1,
    visible := true }

/-- A successful venue reply (retcode `TRADE_RETCODE_DONE`, order 99). -/
def resultDone : OrderSendResult :=
  { retcode := Mt5.TRADE_RETCODE_DONE, deal := 1, order := 99,
    volume := 1, price := 2, bid := 2, ask := 2,
    comment := "done", request_id := 1, retcode_external := 0 }

/-- A request `send_order_request` rejects before submission: a "deal"
action paired with a BUY_LIMIT order type. -/
def reqDealBadType : Request :=
  { action := some Mt5.TRADE_ACTION_DEAL, symbol := some "X",
    type := some Mt5.ORDER_TYPE_BUY_LIMIT }

/-- Witness for the C3 validation theorem: a deal request with a
BUY_LIMIT type is rejected with no venue call. -/
theorem send_order_request_action_type_validation_witness :
    (send_order_request envBase reqDealBadType).ret = none ∧
    (send_order_request envBase reqDealBadType).events = [] :=
  send_order_request_action_type_validation envBase reqDealBadType
    Mt5.TRADE_ACTION_DEAL Mt5.ORDER_TYPE_BUY_LIMIT rfl rfl
    (Or.inl ⟨rfl, by decide⟩)

/-- Environment for the C3 counterexample: instrument visible, venue
accepts the order. -/
def envC3pend : Env :=
  { envBase with
    symbolInfo := fun s => if s = "X" then some infoVisible else none,
    orderSend := fun _ => some resultDone }

/-- A pending request using the BUY_STOP_LIMIT type, which is not one of
the four limit/stop variants. -/
def reqC3pend : Request :=
  { action := some Mt5.TRADE_ACTION_PENDING, symbol := some "X",
    volume := some 1, price := some 2,
    type := some Mt5.ORDER_TYPE_BUY_STOP_LIMIT, magic := some 7,
    deviation := some 10, type_time := some Mt5.ORDER_TIME_GTC,
    type_filling := some Mt5.ORDER_FILLING_IOC }

/-- Counterexample to claim C3 as stated: a pending request whose order
type is BUY_STOP_LIMIT — not one of the four limit/stop variants — is
accepted and submitted to the venue rather than rejected. -/
theorem send_order_request_pending_stop_limit_counterexample :
    (send_order_request envC3pend reqC3pend).ret = some resultDone ∧
    (send_order_request envC3pend reqC3pend).events.any Event.isOrderSend =
      true ∧
    reqC3pend.type = some Mt5.ORDER_TYPE_BUY_STOP_LIMIT ∧
    ¬ (Mt5.ORDER_TYPE_BUY_STOP_LIMIT = Mt5.ORDER_TYPE_BUY_LIMIT ∨
       Mt5.ORDER_TYPE_BUY_STOP_LIMIT = Mt5.ORDER_TYPE_SELL_LIMIT ∨
       Mt5.ORDER_TYPE_BUY_STOP_LIMIT = Mt5.ORDER_TYPE_BUY_STOP ∨
       Mt5.ORDER_TYPE_BUY_STOP_LIMIT = Mt5.ORDER_TYPE_SELL_STOP) := by
  decide

/-- A venue reply with retcode 10011 (`TRADE_RETCODE_ERROR`). -/
def resultErr : OrderSendResult :=
  { retcode := Mt5.TRADE_RETCODE_ERROR, deal := 0, order := 0, volume := 0,
    price := 0, bid := 0, ask := 0, comment := "Request error",
    request_id := 2, retcode_external := 0 }

/-- A venue reply with retcode 10013 (`TRADE_RETCODE_INVALID`). -/
def resultInvalid : OrderSendResult :=
  { retcode := 10013, deal := 0, order := 0, volume := 0, price := 0,
    bid := 0, ask := 0, comment := "Invalid request", request_id := 3,
    retcode_external := 0 }

/-- A well-formed market BUY deal request. -/
def reqDealBuy : Request :=
  { action := some Mt5.TRADE_ACTION_DEAL, symbol := some "X",
    volume := some 1, price := some 2, type := some Mt5.ORDER_TYPE_BUY,
    magic := some 7, deviation := some 10,
    type_time := some Mt5.ORDER_TIME_GTC,
    type_filling := some Mt5.ORDER_FILLING_IOC }

/-- Environment whose venue replies 10011 to every submission. -/
def envRetErr : Env :=
  { envBase with
    symbolInfo := fun s => if s = "X" then some infoVisible else none,
    orderSend := fun _ => some resultErr }

/-- Environment whose venue replies 10013 to every submission. -/
def envRetInvalid : Env :=
  { envBase with
    symbolInfo := fun s => if s = "X" then some infoVisible else none,
    orderSend := fun _ => some resultInvalid }

/-- Claim C4 (the code is wrong): when the venue returns the non-success
status 10011, `send_order_request` returns `None` to the caller instead
of the translated result — the 10011 diagnostic block references the name
`json`, which `order_info.py` never imports, so it raises `NameError` and
the blanket `except` swallows the result.  For another non-success status
(10013) the translated result dict, with the raw broker message, is
returned as the spec describes. -/
theorem send_order_request_retcode_10011_returns_none :
    (send_order_request envRetErr reqDealBuy).ret = none ∧
    (send_order_request envRetErr reqDealBuy).events.any Event.isOrderSend =
      true ∧
    (send_order_request envRetInvalid reqDealBuy).ret = some resultInvalid ∧
    resultInvalid.comment = "Invalid request" := by decide

/-- If `sendFinish` emitted an annotation write, the submission succeeded:
the reply's retcode is `TRADE_RETCODE_DONE`, the saved ticket is its
positive order number, and the saved text is the request's untruncated
`original_comment`. -/
theorem sendFinish_save (r : Request) (m : Mt5Request)
    (result : OrderSendResult) (t : ℤ) (s : String)
    (hmem : Event.saveComment t s ∈ (sendFinish r m result).events) :
    (sendFinish r m result).events =
      [Event.orderSend m, Event.saveComment t s] ∧
    result.retcode = Mt5.TRADE_RETCODE_DONE ∧ result.order = t ∧ 0 < t ∧
    r.original_comment = some s ∧ s ≠ "" := by
  unfold sendFinish at hmem ⊢
  cases hoc : r.original_comment with
  | none => simp [hoc] at hmem
  | some oc =>
    by_cases hc : oc ≠ "" ∧ result.retcode = Mt5.TRADE_RETCODE_DONE ∧
        result.order > 0
    · simp only [hoc, if_pos hc, List.mem_cons, List.mem_singleton,
        List.not_mem_nil, or_false] at hmem
      rcases hmem with hmem | hmem
      · exact absurd hmem (by simp)
      · rcases Event.saveComment.inj hmem.symm with ⟨ht, hs⟩
        subst ht; subst hs
        exact ⟨by simp [hoc, hc], hc.2.1, rfl, hc.2.2, rfl, hc.1⟩
    · simp [hoc, hc] at hmem

/-- Lift of `sendFinish_save` through `sendSubmit`. -/
theorem sendSubmit_save (env : Env) (r : Request) (t : ℤ) (s : String)
    (hmem : Event.saveComment t s ∈ (sendSubmit env r).events) :
    (sendSubmit env r).events =
      [Event.orderSend (buildMt5Request ((sendSubmit env r).request)),
       Event.saveComment t s] ∧
    env.orderSend (buildMt5Request ((sendSubmit env r).request)) =
      (sendSubmit env r).ret ∧
    ((sendSubmit env r).ret.map OrderSendResult.retcode) =
      some Mt5.TRADE_RETCODE_DONE ∧
    ((sendSubmit env r).ret.map OrderSendResult.order) = some t ∧ 0 < t ∧
    (sendSubmit env r).request.original_comment = some s ∧ s ≠ "" := by
  unfold sendSubmit at hmem ⊢
  cases h : env.orderSend (buildMt5Request (applyRequestDefaults (processComment r))) with
  | none => simp [h] at hmem
  | some result =>
    simp only [h] at hmem ⊢
    by_cases hret : result.retcode ≠ Mt5.TRADE_RETCODE_DONE
    · by_cases herr : result.retcode = Mt5.TRADE_RETCODE_ERROR
      · simp [hret, herr, Mt5.TRADE_RETCODE_ERROR,
          Mt5.TRADE_RETCODE_DONE] at hmem
      · simp only [if_pos hret, if_neg herr] at hmem ⊢
        obtain ⟨hev, hdone, _, _, _, _⟩ := sendFinish_save _ _ _ _ _ hmem
        exact absurd hdone hret
    · simp only [if_neg hret] at hmem ⊢
      obtain ⟨hev, hdone, hord, hpos, hoc, hs⟩ := sendFinish_save _ _ _ _ _ hmem
      refine ⟨hev, h, ?_, ?_, hpos, hoc, hs⟩
      · show Option.map OrderSendResult.retcode (some result) =
          some Mt5.TRADE_RETCODE_DONE
        simp [hdone]
      · show Option.map OrderSendResult.order (some result) = some t
        simp [hord]

/-- Lift of `sendSubmit_save` through the symbol check. -/
theorem sendCheckSymbol_save (env : Env) (act : ℤ) (sym : String)
    (r : Request) (t : ℤ) (s : String)
    (hmem : Event.saveComment t s ∈ (sendCheckSymbol env act sym r).events) :
    (sendCheckSymbol env act sym r).events =
      [Event.orderSend (buildMt5Request ((sendCheckSymbol env act sym r).request)),
       Event.saveComment t s] ∧
    env.orderSend (buildMt5Request ((sendCheckSymbol env act sym r).request)) =
      (sendCheckSymbol env act sym r).ret ∧
    ((sendCheckSymbol env act sym r).ret.map OrderSendResult.retcode) =
      some Mt5.TRADE_RETCODE_DONE ∧
    ((sendCheckSymbol env act sym r).ret.map OrderSendResult.order) =
      some t ∧ 0 < t ∧
    (sendCheckSymbol env act sym r).request.original_comment = some s ∧
    s ≠ "" := by
  unfold sendCheckSymbol at hmem ⊢
  by_cases hrem : act ≠ Mt5.TRADE_ACTION_REMOVE
  · simp only [if_pos hrem] at hmem ⊢
    cases hinfo : env.symbolInfo sym with
    | none => simp [hinfo, sendReject] at hmem
    | some info =>
      simp only [hinfo] at hmem ⊢
      by_cases hvis : ¬ info.visible ∧ ¬ env.symbolSelect sym
      · simp [sendReject, hvis.1, hvis.2] at hmem
      · rw [if_neg hvis] at hmem ⊢
        exact sendSubmit_save env r t s hmem
  · simp only [if_neg hrem] at hmem ⊢
    exact sendSubmit_save env r t s hmem

/-- Claim C5: the annotation store is written only after the venue has
returned a success status for the submission: whenever the gateway's
event trace contains a `saveComment`, the trace is exactly the venue
submission followed by that single annotation write, the venue's reply to
that submission is the gateway's returned result, its retcode is
`TRADE_RETCODE_DONE`, and the saved ticket/text are the positive order
number of that reply and the request's untruncated rationale.  In
particular a non-success status or an absent reply can never produce an
annotation write. -/
theorem send_order_request_save_only_after_success (env : Env)
    (req : Request) (t : ℤ) (s : String)
    (hmem : Event.saveComment t s ∈ (send_order_request env req).events) :
    (send_order_request env req).events =
      [Event.orderSend (buildMt5Request ((send_order_request env req).request)),
       Event.saveComment t s] ∧
    env.orderSend (buildMt5Request ((send_order_request env req).request)) =
      (send_order_request env req).ret ∧
    ((send_order_request env req).ret.map OrderSendResult.retcode) =
      some Mt5.TRADE_RETCODE_DONE ∧
    ((send_order_request env req).ret.map OrderSendResult.order) =
      some t ∧ 0 < t ∧
    (send_order_request env req).request.original_comment = some s ∧
    s ≠ "" := by
  unfold send_order_request at hmem ⊢
  cases ha : req.action with
  | none => simp [ha, sendReject] at hmem
  | some act =>
    simp only [ha] at hmem ⊢
    cases hsym : req.symbol with
    | none => simp [hsym, sendReject] at hmem
    | some sym =>
      simp only [hsym] at hmem ⊢
      by_cases h1 : (act = Mt5.TRADE_ACTION_DEAL ∨
          act = Mt5.TRADE_ACTION_PENDING) ∧ req.volume.getD 0 ≤ 0
      · rw [if_pos h1] at hmem; simp [sendReject] at hmem
      rw [if_neg h1] at hmem ⊢
      by_cases h2 : (act = Mt5.TRADE_ACTION_DEAL ∨
          act = Mt5.TRADE_ACTION_PENDING) ∧ req.price.getD 0 ≤ 0
      · rw [if_pos h2] at hmem; simp [sendReject] at hmem
      rw [if_neg h2] at hmem ⊢
      by_cases h3 : act = Mt5.TRADE_ACTION_DEAL ∨ act = Mt5.TRADE_ACTION_PENDING
      · rw [if_pos h3] at hmem ⊢
        by_cases hot : req.type = none
        · rw [if_pos hot] at hmem; simp [sendReject] at hmem
        rw [if_neg hot] at hmem ⊢
        by_cases h4 : act = Mt5.TRADE_ACTION_DEAL ∧
            ¬ (req.type = some Mt5.ORDER_TYPE_BUY ∨
               req.type = some Mt5.ORDER_TYPE_SELL)
        · rw [if_pos h4] at hmem; simp [sendReject] at hmem
        rw [if_neg h4] at hmem ⊢
        by_cases h5 : act = Mt5.TRADE_ACTION_PENDING ∧
            ¬ (req.type = some Mt5.ORDER_TYPE_BUY_LIMIT ∨
               req.type = some Mt5.ORDER_TYPE_SELL_LIMIT ∨
               req.type = some Mt5.ORDER_TYPE_BUY_STOP ∨
               req.type = some Mt5.ORDER_TYPE_SELL_STOP ∨
               req.type = some Mt5.ORDER_TYPE_BUY_STOP_LIMIT ∨
               req.type = some Mt5.ORDER_TYPE_SELL_STOP_LIMIT)
        · rw [if_pos h5] at hmem; simp [sendReject] at hmem
        rw [if_neg h5] at hmem ⊢
        exact sendCheckSymbol_save env act sym _ t s hmem
      · rw [if_neg h3] at hmem ⊢
        exact sendCheckSymbol_save env act sym _ t s hmem

/-- Environment whose venue accepts every submission with order 99. -/
def envRetDone : Env :=
  { envBase with
    symbolInfo := fun s => if s = "X" then some infoVisible else none,
    orderSend := fun _ => some resultDone }

/-- A deal request carrying an untruncated rationale for the annotation
store. -/
def reqWithRationale : Request :=
  { reqDealBuy with original_comment := some "rationale" }

/-- Witness for the C5 theorem: a successful submission that persists its
rationale under the returned order number 99. -/
theorem send_order_request_save_only_after_success_witness :
    (send_order_request envRetDone reqWithRationale).events =
      [Event.orderSend
        (buildMt5Request ((send_order_request envRetDone reqWithRationale).request)),
       Event.saveComment 99 "rationale"] ∧
    envRetDone.orderSend
      (buildMt5Request ((send_order_request envRetDone reqWithRationale).request)) =
      (send_order_request envRetDone reqWithRationale).ret ∧
    ((send_order_request envRetDone reqWithRationale).ret.map
      OrderSendResult.retcode) = some Mt5.TRADE_RETCODE_DONE ∧
    ((send_order_request envRetDone reqWithRationale).ret.map
      OrderSendResult.order) = some 99 ∧ (0 : ℤ) < 99 ∧
    (send_order_request envRetDone reqWithRationale).request.original_comment =
      some "rationale" ∧ "rationale" ≠ "" :=
  send_order_request_save_only_after_success envRetDone reqWithRationale 99
    "rationale" (by decide)

theorem applyMagicDefault_comment (env : Env) (r : Request) :
    (applyMagicDefault env r).comment = r.comment := by
  unfold applyMagicDefault; split_ifs <;> rfl

theorem applyMagicDefault_magic_none (env : Env) (r : Request)
    (h : r.magic = none) :
    (applyMagicDefault env r).magic = some env.configMagic := by
  unfold applyMagicDefault; rw [if_pos h]

theorem applyMagicDefault_deviation (env : Env) (r : Request) :
    (applyMagicDefault env r).deviation = r.deviation := by
  unfold applyMagicDefault; split_ifs <;> rfl

theorem applyMagicDefault_type_time (env : Env) (r : Request) :
    (applyMagicDefault env r).type_time = r.type_time := by
  unfold applyMagicDefault; split_ifs <;> rfl

theorem applyMagicDefault_type_filling (env : Env) (r : Request) :
    (applyMagicDefault env r).type_filling = r.type_filling := by
  unfold applyMagicDefault; split_ifs <;> rfl

theorem processComment_magic (r : Request) :
    (processComment r).magic = r.magic := by
  simp only [processComment]; split_ifs <;> rfl

theorem processComment_deviation (r : Request) :
    (processComment r).deviation = r.deviation := by
  simp only [processComment]; split_ifs <;> rfl

theorem processComment_type_time (r : Request) :
    (processComment r).type_time = r.type_time := by
  simp only [processComment]; split_ifs <;> rfl

theorem processComment_type_filling (r : Request) :
    (processComment r).type_filling = r.type_filling := by
  simp only [processComment]; split_ifs <;> rfl

theorem processComment_comment_nonempty (r : Request) (c : String)
    (hc : r.comment = some c) (hne : c ≠ "") :
    (processComment r).comment = some (truncate32 (cleanAscii c)) := by
  simp only [processComment]
  rw [hc]
  simp [hne]

theorem processComment_comment_empty (r : Request)
    (h : r.comment.getD "" = "") :
    (processComment r).comment = none := by
  simp only [processComment]
  split_ifs with h1 h2
  · exact absurd h h1
  · rfl
  · simpa using h2

theorem applyRequestDefaults_magic (r : Request) :
    (applyRequestDefaults r).magic = r.magic := by
  simp only [applyRequestDefaults]; split_ifs <;> rfl

theorem applyRequestDefaults_comment (r : Request) :
    (applyRequestDefaults r).comment = r.comment := by
  simp only [applyRequestDefaults]; split_ifs <;> rfl

theorem applyRequestDefaults_deviation_none (r : Request)
    (h : r.deviation = none) :
    (applyRequestDefaults r).deviation = some 10 := by
  simp only [applyRequestDefaults]
  split_ifs <;> simp_all

theorem applyRequestDefaults_type_time_none (r : Request)
    (h : r.type_time = none) :
    (applyRequestDefaults r).type_time = some Mt5.ORDER_TIME_GTC := by
  simp only [applyRequestDefaults]
  split_ifs <;> simp_all

theorem applyRequestDefaults_type_filling_none (r : Request)
    (h : r.type_filling = none) :
    (applyRequestDefaults r).type_filling = some Mt5.ORDER_FILLING_IOC := by
  simp only [applyRequestDefaults]
  split_ifs <;> simp_all

/-- Every non-rejected path through `sendSubmit` hands back the request
after comment processing and default filling. -/
theorem sendSubmit_request (env : Env) (r : Request) :
    (sendSubmit env r).request = applyRequestDefaults (processComment r) := by
  simp only [sendSubmit]
  split
  · rfl
  · split_ifs <;> rfl

theorem sendCheckSymbol_request (env : Env) (act : ℤ) (sym : String)
    (r : Request) (h : (sendCheckSymbol env act sym r).ret.isSome = true) :
    (sendCheckSymbol env act sym r).request =
      applyRequestDefaults (processComment r) := by
  unfold sendCheckSymbol at h ⊢
  by_cases hrem : act ≠ Mt5.TRADE_ACTION_REMOVE
  · rw [if_pos hrem] at h ⊢
    cases hinfo : env.symbolInfo sym with
    | none => simp [hinfo, sendReject] at h
    | some info =>
      simp only [hinfo] at h ⊢
      by_cases hvis : ¬ info.visible ∧ ¬ env.symbolSelect sym
      · simp [sendReject, hvis.1, hvis.2] at h
      · rw [if_neg hvis] at h ⊢
        exact sendSubmit_request env r
  · rw [if_neg hrem] at h ⊢
    exact sendSubmit_request env r

/-- When `send_order_request` returns a result, the caller's dictionary
has gone through the magic default, comment processing and
default-parameter mutations. -/
theorem send_order_request_request_shape (env : Env) (req : Request)
    (h : (send_order_request env req).ret.isSome = true) :
    (send_order_request env req).request =
      applyRequestDefaults (processComment
        (if req.magic = none then applyMagicDefault env req else req)) := by
  unfold send_order_request at h ⊢
  cases ha : req.action with
  | none => simp [ha, sendReject] at h
  | some act =>
    simp only [ha] at h ⊢
    cases hsym : req.symbol with
    | none => simp [hsym, sendReject] at h
    | some sym =>
      simp only [hsym] at h ⊢
      by_cases h1 : (act = Mt5.TRADE_ACTION_DEAL ∨
          act = Mt5.TRADE_ACTION_PENDING) ∧ req.volume.getD 0 ≤ 0
      · rw [if_pos h1] at h; simp [sendReject] at h
      rw [if_neg h1] at h ⊢
      by_cases h2 : (act = Mt5.TRADE_ACTION_DEAL ∨
          act = Mt5.TRADE_ACTION_PENDING) ∧ req.price.getD 0 ≤ 0
      · rw [if_pos h2] at h; simp [sendReject] at h
      rw [if_neg h2] at h ⊢
      by_cases h3 : act = Mt5.TRADE_ACTION_DEAL ∨ act = Mt5.TRADE_ACTION_PENDING
      · rw [if_pos h3] at h ⊢
        by_cases hot : req.type = none
        · rw [if_pos hot] at h; simp [sendReject] at h
        rw [if_neg hot] at h ⊢
        by_cases h4 : act = Mt5.TRADE_ACTION_DEAL ∧
            ¬ (req.type = some Mt5.ORDER_TYPE_BUY ∨
               req.type = some Mt5.ORDER_TYPE_SELL)
        · rw [if_pos h4] at h; simp [sendReject] at h
        rw [if_neg h4] at h ⊢
        by_cases h5 : act = Mt5.TRADE_ACTION_PENDING ∧
            ¬ (req.type = some Mt5.ORDER_TYPE_BUY_LIMIT ∨
               req.type = some Mt5.ORDER_TYPE_SELL_LIMIT ∨
               req.type = some Mt5.ORDER_TYPE_BUY_STOP ∨
               req.type = some Mt5.ORDER_TYPE_SELL_STOP ∨
               req.type = some Mt5.ORDER_TYPE_BUY_STOP_LIMIT ∨
               req.type = some Mt5.ORDER_TYPE_SELL_STOP_LIMIT)
        · rw [if_pos h5] at h; simp [sendReject] at h
        rw [if_neg h5] at h ⊢
        exact sendCheckSymbol_request env act sym _ h
      · rw [if_neg h3] at h ⊢
        exact sendCheckSymbol_request env act sym _ h

/-- Claim C10 (amended): on every call that returns a result,
`send_order_request` has mutated the caller's dictionary in place as
follows — a missing magic number is replaced by the configured default, a
nonempty comment is replaced by its printable-ASCII 32-character
truncation while an empty or absent comment leaves no `comment` key, and
missing `deviation` / `type_time` / `type_filling` keys receive defaults.
(The original claim's conclusion that the dictionary is never the same
after the call is false: a fully specified request with an already-clean
comment is returned unchanged — see the counterexample.) -/
theorem send_order_request_mutates_request (env : Env) (req : Request)
    (h : (send_order_request env req).ret.isSome = true) :
    (req.magic = none →
      (send_order_request env req).request.magic = some env.configMagic) ∧
    (∀ c, req.comment = some c → c ≠ "" →
      (send_order_request env req).request.comment =
        some (truncate32 (cleanAscii c))) ∧
    (req.comment.getD "" = "" →
      (send_order_request env req).request.comment = none) ∧
    (req.deviation = none →
      (send_order_request env req).request.deviation = some 10) ∧
    (req.type_time = none →
      (send_order_request env req).request.type_time =
        some Mt5.ORDER_TIME_GTC) ∧
    (req.type_filling = none →
      (send_order_request env req).request.type_filling =
        some Mt5.ORDER_FILLING_IOC) := by
  have hshape := send_order_request_request_shape env req h
  have hr1c : (if req.magic = none then applyMagicDefault env req
      else req).comment = req.comment := by
    split_ifs with hm
    · exact applyMagicDefault_comment env req
    · rfl
  refine ⟨?_, ?_, ?_, ?_, ?_, ?_⟩
  · intro hm
    rw [hshape, applyRequestDefaults_magic, processComment_magic, if_pos hm]
    exact applyMagicDefault_magic_none env req hm
  · intro c hc hne
    rw [hshape, applyRequestDefaults_comment]
    exact processComment_comment_nonempty _ c (hr1c.trans hc) hne
  · intro hc
    rw [hshape, applyRequestDefaults_comment]
    exact processComment_comment_empty _ (by rw [hr1c]; exact hc)
  · intro hd
    rw [hshape]
    exact applyRequestDefaults_deviation_none _ (by
      rw [processComment_deviation]
      split_ifs with hm
      · rw [applyMagicDefault_deviation]; exact hd
      · exact hd)
  · intro ht
    rw [hshape]
    exact applyRequestDefaults_type_time_none _ (by
      rw [processComment_type_time]
      split_ifs with hm
      · rw [applyMagicDefault_type_time]; exact ht
      · exact ht)
  · intro hf
    rw [hshape]
    exact applyRequestDefaults_type_filling_none _ (by
      rw [processComment_type_filling]
      split_ifs with hm
      · rw [applyMagicDefault_type_filling]; exact hf
      · exact hf)

/-- A fully specified request whose comment is already short, clean
ASCII. -/
def reqFullySpecified : Request :=
  { reqDealBuy with comment := some "hi" }

/-- Counterexample to claim C10's conclusion that the caller's dictionary
is never the same after the call: a fully specified request with an
already-sanitized comment is returned unchanged even though the call
succeeds. -/
theorem send_order_request_unchanged_request_counterexample :
    (send_order_request envRetDone reqFullySpecified).request =
      reqFullySpecified ∧
    (send_order_request envRetDone reqFullySpecified).ret.isSome = true := by
  decide

/-- A request leaving magic, deviation, time and filling policies to the
gateway defaults, with a comment containing a non-ASCII character. -/
def reqNeedsDefaults : Request :=
  { action := some Mt5.TRADE_ACTION_DEAL, symbol := some "X",
    volume := some 1, price := some 2, type := some Mt5.ORDER_TYPE_BUY,
    comment := some "hé" }

/-- Witness for the amended C10 theorem: the gateway writes the default
magic, sanitizes the comment, and fills the three default parameters. -/
theorem send_order_request_mutates_request_witness :
    (reqNeedsDefaults.magic = none →
      (send_order_request envRetDone reqNeedsDefaults).request.magic =
        some envRetDone.configMagic) ∧
    (∀ c, reqNeedsDefaults.comment = some c → c ≠ "" →
      (send_order_request envRetDone reqNeedsDefaults).request.comment =
        some (truncate32 (cleanAscii c))) ∧
    (reqNeedsDefaults.comment.getD "" = "" →
      (send_order_request envRetDone reqNeedsDefaults).request.comment =
        none) ∧
    (reqNeedsDefaults.deviation = none →
      (send_order_request envRetDone reqNeedsDefaults).request.deviation =
        some 10) ∧
    (reqNeedsDefaults.type_time = none →
      (send_order_request envRetDone reqNeedsDefaults).request.type_time =
        some Mt5.ORDER_TIME_GTC) ∧
    (reqNeedsDefaults.type_filling = none →
      (send_order_request envRetDone reqNeedsDefaults).request.type_filling =
        some Mt5.ORDER_FILLING_IOC) :=
  send_order_request_mutates_request envRetDone reqNeedsDefaults (by decide)

/-- Claim C7 (amended): a CLOSE action whose order_id resolves to a
pending order rather than an open position (no position carries that
ticket) is rejected locally — no close submission reaches the venue — but
with the generic reason "position does not exist, order id: N"
(持仓不存在，订单号) or "no open positions" (当前无持仓); the code never
inspects pending orders on the CLOSE path, and the pending-order-specific
diagnostic exists only in the MODIFY path. -/
theorem execute_close_cancel_pending_rejected_locally (env : Env) (rec : Rec)
    (oid : ℤ) (hact : rec.action = some "CLOSE")
    (hoid : rec.order_id = some oid) (h0 : ¬ oid = 0)
    (hnopos : env.positionsByTicket oid = [])
    (hpend : env.ordersByTicket oid ≠ []) :
    (execute_close_cancel env rec).2 = [] ∧
    (execute_close_cancel env rec).1.success = false ∧
    ((execute_close_cancel env rec).1.reason = "当前无持仓" ∨
     (execute_close_cancel env rec).1.reason =
       "持仓不存在，订单号: " ++ toString oid) := by
  have hp := hpend
  unfold execute_close_cancel
  simp only [hoid]
  rw [if_neg h0, if_pos hact]
  unfold executeClose
  cases hpg : env.positionsGet with
  | none => exact ⟨rfl, rfl, Or.inl rfl⟩
  | some l =>
    cases l with
    | nil => exact ⟨rfl, rfl, Or.inl rfl⟩
    | cons p ps =>
      simp [hnopos]

/-- An unrelated open position with ticket 1. -/
def posTicket1 : RawPosition :=
  { ticket := 1, symbol := "X", type := 0, volume := 1, price_open := 2,
    sl := 0, tp := 0, comment := "", magic := 100001, time := 0, profit := 0 }

/-- A pending order with ticket 2. -/
def pendTicket2 : RawPosition :=
  { ticket := 2, symbol := "X", type := 2, volume := 1, price_open := 2,
    sl := 0, tp := 0, comment := "", magic := 100001, time := 0, profit := 0 }

/-- Environment in which ticket 2 denotes a pending order, not a
position. -/
def envC7 : Env :=
  { envBase with
    positionsGet := some [posTicket1],
    positionsByTicket := fun t => if t = 1 then [posTicket1] else [],
    ordersByTicket := fun t => if t = 2 then [pendTicket2] else [] }

/-- A CLOSE recommendation aimed at the pending order's ticket. -/
def recClosePending : Rec :=
  { symbol := some "X", action := some "CLOSE", order_id := some 2 }

/-- Counterexample to claim C7 as stated: the CLOSE action on a ticket
that denotes a pending order is rejected locally and without any venue
submission, but with the generic reason "position does not exist"
(持仓不存在), not the claimed "resolves to pending order, not position"
message — the executor never looks at pending orders here. -/
theorem execute_close_cancel_pending_reason_counterexample :
    execute_close_cancel envC7 recClosePending =
      ({ symbol := some "X", action := some "CLOSE", success := false,
         reason := "持仓不存在，订单号: 2", order_ticket := none }, []) ∧
    envC7.ordersByTicket 2 = [pendTicket2] ∧
    "持仓不存在，订单号: 2" ≠ "resolves to pending order, not position" := by
  decide

/-- Witness for the amended C7 theorem at the concrete pending-ticket
scenario. -/
theorem execute_close_cancel_pending_rejected_locally_witness :
    (execute_close_cancel envC7 recClosePending).2 = [] ∧
    (execute_close_cancel envC7 recClosePending).1.success = false ∧
    ((execute_close_cancel envC7 recClosePending).1.reason = "当前无持仓" ∨
     (execute_close_cancel envC7 recClosePending).1.reason =
       "持仓不存在，订单号: " ++ toString (2 : ℤ)) :=
  execute_close_cancel_pending_rejected_locally envC7 recClosePending 2
    rfl rfl (by decide) (by decide) (by decide)

/-- Every outcome of `execute_close_cancel` echoes the recommendation's
symbol and action. -/
theorem execute_close_cancel_fields (env : Env) (rec : Rec) :
    (execute_close_cancel env rec).1.symbol = rec.symbol ∧
    (execute_close_cancel env rec).1.action = rec.action := by
  simp only [execute_close_cancel, executeClose, closeCancelFinish]
  repeat' split
  all_goals exact ⟨rfl, rfl⟩

/-- Every outcome of `execute_modify` echoes the recommendation's symbol
and carries action MODIFY. -/
theorem execute_modify_fields (env : Env) (rec : Rec) :
    (execute_modify env rec).1.symbol = rec.symbol ∧
    (execute_modify env rec).1.action = some "MODIFY" := by
  simp only [execute_modify, modifyTpStage, modifySend, modifyAttributeError]
  repeat' split
  all_goals exact ⟨rfl, rfl⟩

/-- Every outcome of `buySellSend` echoes the given symbol and action. -/
theorem buySellSend_fields (env : Env) (sym act : Option String)
    (params : Request) :
    (buySellSend env sym act params).1.symbol = sym ∧
    (buySellSend env sym act params).1.action = act := by
  simp only [buySellSend]
  split
  · split_ifs <;> exact ⟨rfl, rfl⟩
  · exact ⟨rfl, rfl⟩

/-- Every outcome of `execute_buy_sell` echoes the recommendation's
symbol and action. -/
theorem execute_buy_sell_fields (env : Env) (rec : Rec) (ai : AccountInfo) :
    (execute_buy_sell env rec ai).1.symbol = rec.symbol ∧
    (execute_buy_sell env rec ai).1.action = rec.action := by
  simp only [execute_buy_sell]
  repeat' split
  all_goals
    first
      | exact ⟨rfl, rfl⟩
      | exact buySellSend_fields env rec.symbol rec.action _

/-- One loop iteration returns an outcome carrying the recommendation's
own symbol and action. -/
theorem runRecommendation_fields (env : Env) (ai : AccountInfo) (rec : Rec) :
    (runRecommendation env ai rec).1.symbol = rec.symbol ∧
    (runRecommendation env ai rec).1.action = rec.action := by
  simp only [runRecommendation]
  split_ifs with h1 h2 h3 h4
  · exact ⟨rfl, rfl⟩
  · exact execute_close_cancel_fields env rec
  · exact ⟨(execute_modify_fields env rec).1,
      ((execute_modify_fields env rec).2).trans h3.symm⟩
  · exact execute_buy_sell_fields env rec ai
  · exact ⟨rfl, rfl⟩

/-- Claim C8 (amended): provided the account information is available,
`execute_trading_plan` returns exactly one outcome record per
recommendation, in input order, each echoing that recommendation's symbol
and action — so no action's failure (unknown kinds included, which
produce a failure record) prevents the later actions from executing and
being recorded.  (As stated the claim also fails when the account lookup
itself fails: the plan then aborts with an empty result list — see the
counterexample.) -/
theorem execute_trading_plan_one_outcome_per_rec (env : Env)
    (recs : List Rec) (ai : AccountInfo)
    (h : env.accountInfo = some ai) :
    ((execute_trading_plan env recs).1).length = recs.length ∧
    ((execute_trading_plan env recs).1).map (fun o => (o.symbol, o.action)) =
      recs.map (fun r => (r.symbol, r.action)) := by
  have hmap : ∀ l : List Rec,
      List.map ((fun o => (o.symbol, o.action)) ∘ Prod.fst ∘
        runRecommendation env ai) l =
      l.map fun r => (r.symbol, r.action) := by
    intro l
    induction l with
    | nil => rfl
    | cons r rs ih =>
      simp only [List.map_cons, ih, List.cons.injEq, and_true,
        Function.comp_apply]
      rw [(runRecommendation_fields env ai r).1,
        (runRecommendation_fields env ai r).2]
  unfold execute_trading_plan
  by_cases he : recs.isEmpty
  · rw [if_pos he]
    have : recs = [] := List.isEmpty_iff.mp he
    subst this
    exact ⟨rfl, rfl⟩
  · rw [if_neg he, h]
    simp only [List.map_map]
    constructor
    · simp
    · exact hmap recs

/-- A non-trading HOLD recommendation. -/
def recHold : Rec := { symbol := some "X", action := some "HOLD" }

/-- Counterexample to claim C8 as stated: with a one-element plan but an
unavailable account lookup, `execute_trading_plan` returns zero outcome
records instead of one per recommendation. -/
theorem execute_trading_plan_no_account_counterexample :
    (execute_trading_plan envBase [recHold]).1.length = 0 ∧
    [recHold].length = 1 ∧ envBase.accountInfo = none := by decide

/-- A concrete account-info dictionary. -/
def acctMain : AccountInfo :=
  { login := 1, server := "srv", currency := "USD", balance := 1000,
    equity := 1000, margin := 0, free_margin := 1000, margin_level := 0 }

/-- Environment with account information available. -/
def envWithAcct : Env := { envBase with accountInfo := some acctMain }

/-- An unknown-action recommendation. -/
def recUnknown : Rec := { symbol := some "Y", action := some "FOO" }

/-- Witness for the amended C8 theorem on a two-recommendation plan whose
second action kind is unknown. -/
theorem execute_trading_plan_one_outcome_per_rec_witness :
    ((execute_trading_plan envWithAcct [recHold, recUnknown]).1).length =
      [recHold, recUnknown].length ∧
    ((execute_trading_plan envWithAcct [recHold, recUnknown]).1).map
        (fun o => (o.symbol, o.action)) =
      [recHold, recUnknown].map (fun r => (r.symbol, r.action)) :=
  execute_trading_plan_one_outcome_per_rec envWithAcct [recHold, recUnknown]
    acctMain rfl

/-- Claim C9: a watcher tick that observes zero open positions performs no
venue mutation and no quote fetch (its event list is empty), clears both
cache maps completely, and sleeps the normal poll interval; and a
position with no target set (tp ≤ 0) is never evaluated for triggering:
its check returns false immediately, touching neither the cache nor the
venue. -/
theorem monitor_zero_positions_and_no_target (env : Env) (st st2 : MonState)
    (pos : PosDict) (hen : env.enabled = true)
    (hpos : Monitor.get_active_positions_silent env = some [])
    (htp : pos.tp ≤ 0) :
    Monitor.monitor_tick env st =
      ({ price_cache := [], last_cache_update := [] }, [],
       env.monitorInterval) ∧
    Monitor.check_position_take_profit env st2 pos = (false, st2, []) := by
  constructor
  · unfold Monitor.monitor_tick
    rw [hen]
    simp only [hpos]
    norm_num
  · simp only [Monitor.check_position_take_profit]
    rw [if_pos htp]

/-- Environment reporting zero open positions to the watcher. -/
def envNoPositions : Env :=
  { envBase with positionsTotal := some 0 }

/-- A non-empty cache state to be cleared. -/
def stCached : MonState :=
  { price_cache := [("EURUSD", 2)], last_cache_update := [("EURUSD", 0)] }

/-- A position whose target is unset. -/
def posNoTarget : PosDict :=
  { ticket := 5, symbol := "X", position_type := "Buy", volume := 1,
    price_open := 2, sl := 0, tp := 0, comment := "", magic := 100001,
    time := 0, profit := 0 }

/-- Witness for the C9 theorem: a zero-position tick clears the concrete
cache and emits no event, and the target-less position is skipped. -/
theorem monitor_zero_positions_and_no_target_witness :
    Monitor.monitor_tick envNoPositions stCached =
      ({ price_cache := [], last_cache_update := [] }, [],
       envNoPositions.monitorInterval) ∧
    Monitor.check_position_take_profit envNoPositions stCached posNoTarget =
      (false, stCached, []) :=
  monitor_zero_positions_and_no_target envNoPositions stCached stCached
    posNoTarget rfl (by decide) (by decide)
